import Mathlib

/-! Queue indicator bots.

A shallow embedding of the three bot variants of the repository

* `src/eu-queue/index.js`     (8 players, tier counting)      : namespace `Eu`
* `src/br-queue/index.js`     (8 players, binary activity)    : namespace `Br`
* `src/4 TDM Queue/index.js`  (16 players, tier counting)     : namespace `Tdm`

Every variant is one `updateQueueInfo` cycle over two module level variables.
The cycle is embedded as a pure function of the stored state, the outcome of
the two HTTP queries and the behaviour of the chat client; it returns the new
stored state, the ordered list of observable effects and how the call ended.
-/

namespace QueueBots

/-! ## JavaScript primitives used by the bots -/

/-- Outcome of one `try` block around `fetch(...)` and `response.json()`. -/
inductive FetchResult (α : Type) where
  /-- something inside the `try` block threw; `err` is the printed error -/
  | threw (err : String)
  /-- the flag `response.ok` is false, with the HTTP status -/
  | notOk (status : Nat)
  /-- the flag `response.ok` is true and the body parsed to `data` -/
  | ok (data : α)
  deriving DecidableEq, Repr

/-- What the roster code reads from the parsed body: `players` is `some k` when
`Array.isArray(data.players)` holds and the array has `k` elements, and `none`
when the field is missing or is not an array. -/
structure PlayersData where
  players : Option Nat
  deriving DecidableEq, Repr

/-- What the match code reads from the parsed body: the number of own
enumerable keys `Object.keys(data).length` and the text `JSON.stringify(data)`. -/
structure MatchData where
  keys : Nat
  text : String
  deriving DecidableEq, Repr

/-- Observable effects of a cycle, in program order. -/
inductive Effect where
  | log (line : String)
  | error (line : String)
  | setStatus (status : String)
  | setPresence (name : String) (type : Nat)
  | guildsFetch (id : String)
  | fetchMe
  | setNickname (nick : String)
  | channelsFetch (id : String)
  | send (message : String)
  deriving DecidableEq, Repr

/-- The four writes to the chat platform: status, presence, nickname, log message. -/
def Effect.isSink : Effect → Bool
  | .setStatus _ => true
  | .setPresence _ _ => true
  | .setNickname _ => true
  | .send _ => true
  | _ => false

/-- Every call made on the chat client, reads included. -/
def Effect.isClientCall : Effect → Bool
  | .log _ => false
  | .error _ => false
  | _ => true

/-- Behaviour of the chat client during one cycle.  For a call, `none` means
that it returns normally and `some m` that it throws an error with message `m`.
`channelsFetch` yields an error message, or `none` for a null channel, or
`some b` for a channel whose `isTextBased()` is `b`. -/
structure Client where
  setStatus : Option String
  setPresence : Option String
  guildsFetch : Option String
  fetchMe : Option String
  setNickname : Option String
  channelsFetch : Except String (Option Bool)
  send : Option String

/-- How a call of `updateQueueInfo` ended. -/
inductive Outcome where
  /-- early return: the roster query gave `null` -/
  | skipped
  /-- early return: nothing changed -/
  | unchanged
  /-- an exception left the function while rendering -/
  | threw (err : String)
  /-- the function ran through the four publishing blocks -/
  | published
  deriving DecidableEq, Repr

/-- The call got past both early returns and started rendering. -/
def Outcome.reachedRender : Outcome → Bool
  | .threw _ => true
  | .published => true
  | _ => false

deriving instance DecidableEq for Except

/-- The method `String.prototype.repeat(count)` for an integer `count`: a `RangeError` for
a negative count, otherwise `count` copies of the string.  The implementation
defined upper limit on string length is not modelled. -/
def jsRepeat (s : String) (count : Int) : Except String String :=
  if count < 0 then .error ("RangeError: Invalid count value: " ++ toString count)
  else .ok (String.join (List.replicate count.toNat s))

/-- Template literal rendering of a variable holding a number or `null`. -/
def showNum : Option Nat → String
  | none => "null"
  | some n => toString n

/-- Template literal rendering of a variable holding a boolean or `null`. -/
def showBool : Option Bool → String
  | none => "null"
  | some true => "true"
  | some false => "false"

/-- The lastIndex loop of `text.match(new RegExp(pat, 'g'))` for a pattern
without special characters: `skip` is the number of characters still in front
of `lastIndex`; at `lastIndex` the leftmost position where `pat` starts is a
match and `lastIndex` moves behind it. -/
def globalMatches (pat : List Char) : List Char → Nat → Nat
  | [], _ => 0
  | _ :: rest, skip + 1 => globalMatches pat rest skip
  | c :: rest, 0 =>
    if pat.isPrefixOf (c :: rest) then 1 + globalMatches pat rest (pat.length - 1)
    else globalMatches pat rest 0

/-- The value `matches ? matches.length : 0` for `text.match(new RegExp(pat, 'g'))`. -/
def matchCount (text pat : String) : Nat :=
  globalMatches pat.data text.data 0

/-- Position scan of `String.prototype.includes`. -/
def includesAt (pat : List Char) : List Char → Bool
  | [] => pat.isPrefixOf []
  | c :: rest => pat.isPrefixOf (c :: rest) || includesAt pat rest

/-- The test `text.includes(pat)`. -/
def includes (text pat : String) : Bool :=
  includesAt pat.data text.data

/-! ## The publishing blocks

The status, presence and nickname blocks are the same text in the three files;
the log block differs only in the message, which is passed in. -/

def LOG_CHANNEL_ID : String := "1437635073179517019"
def GUILD_ID : String := "1381807913563324466"

/-- The block `// Update bot status (online/offline)`. -/
def updateStatus (cl : Client) (shouldBeOnline : Bool) : List Effect :=
  if shouldBeOnline then
    match cl.setStatus with
    | none => [.setStatus "online", .log "✅ Bot status: ONLINE"]
    | some m => [.setStatus "online", .error ("❌ Failed to update status: " ++ m)]
  else
    match cl.setStatus with
    | none => [.setStatus "invisible", .log "⚫ Bot status: OFFLINE (invisible)"]
    | some m => [.setStatus "invisible", .error ("❌ Failed to update status: " ++ m)]

/-- The block `// Update bot presence (custom status with progress bar)`. -/
def updatePresence (cl : Client) (progressBar : String) : List Effect :=
  match cl.setPresence with
  | none => [.setPresence progressBar 4, .log ("✅ Custom status updated: " ++ progressBar)]
  | some m => [.setPresence progressBar 4, .error ("❌ Failed to update presence: " ++ m)]

/-- The block `// Update bot nickname`. -/
def updateNickname (cl : Client) (nickname : String) : List Effect :=
  match cl.guildsFetch with
  | some m => [.guildsFetch GUILD_ID, .error ("❌ Failed to update nickname: " ++ m)]
  | none =>
    match cl.fetchMe with
    | some m => [.guildsFetch GUILD_ID, .fetchMe, .error ("❌ Failed to update nickname: " ++ m)]
    | none =>
      match cl.setNickname with
      | some m =>
        [.guildsFetch GUILD_ID, .fetchMe, .setNickname nickname,
          .error ("❌ Failed to update nickname: " ++ m)]
      | none =>
        [.guildsFetch GUILD_ID, .fetchMe, .setNickname nickname,
          .log ("✅ Nickname updated: " ++ nickname)]

/-- The block `// Log to channel`, for the message built by the variant. -/
def logToChannel (cl : Client) (message : String) : List Effect :=
  match cl.channelsFetch with
  | .error m => [.channelsFetch LOG_CHANNEL_ID, .error ("❌ Failed to send message: " ++ m)]
  | .ok none => [.channelsFetch LOG_CHANNEL_ID]
  | .ok (some false) => [.channelsFetch LOG_CHANNEL_ID]
  | .ok (some true) =>
    match cl.send with
    | some m =>
      [.channelsFetch LOG_CHANNEL_ID, .send message, .error ("❌ Failed to send message: " ++ m)]
    | none => [.channelsFetch LOG_CHANNEL_ID, .send message, .log "✅ Logged to channel"]

/-- The roster query `getQueuePlayerCount`, the same text in the three files
up to the value of `QUEUE_ID` in the URL: the returned count, or `none` for
`null`, and what it prints. -/
def getQueuePlayerCount : FetchResult PlayersData → Option Nat × List Effect
  | .threw err => (none, [.error ("❌ Fetch Error (players): " ++ err)])
  | .notOk status => (none, [.error ("❌ NeatQueue Players Error: " ++ toString status)])
  | .ok data =>
    match data.players with
    | some len => (some len, [])
    | none => (some 0, [])

/-- Result of one call of `updateQueueInfo` over a stored state of type `σ`. -/
structure CycleResult (σ : Type) where
  state : σ
  effects : List Effect
  outcome : Outcome

/-! ## `src/eu-queue/index.js` -/

namespace Eu

def QUEUE_ID : String := "1397417921210482788"

/-- The module variables `previousCount` and `previousActiveCount`. -/
structure State where
  previousCount : Option Nat
  previousActiveCount : Option Nat
  deriving DecidableEq, Repr

/-- Both variables start as `null`. -/
def State.init : State := ⟨none, none⟩

def getActiveQueueCount : FetchResult MatchData → Nat × List Effect
  | .threw err => (0, [.error ("❌ Fetch Error (match): " ++ err)])
  | .notOk status => (0, [.error ("❌ NeatQueue Match Error: " ++ toString status)])
  | .ok data =>
    if data.keys = 0 then (0, [])
    else (matchCount data.text QUEUE_ID, [])

def hasChanged (st : State) (count activeCount : Nat) : Bool :=
  some count != st.previousCount || some activeCount != st.previousActiveCount

def shouldBeOnline (count activeCount : Nat) : Bool :=
  decide (activeCount > 0) || decide (count > 0)

def nickname (count activeCount : Nat) : String :=
  if activeCount = 0 then toString count ++ "/8 In Queue"
  else if activeCount = 1 then "Active - " ++ toString count ++ "/8 Next"
  else toString activeCount ++ " Active (" ++ toString count ++ "/8 Next)"

def progressBar (count activeCount : Nat) : Except String String :=
  if activeCount = 0 then do
    let filledSquares ← jsRepeat "🟩" count
    let emptySquares ← jsRepeat "⬜" (8 - (count : Int))
    pure (filledSquares ++ emptySquares)
  else if activeCount = 1 then do
    let yellowSquares ← jsRepeat "🟨" count
    let greenSquares ← jsRepeat "🟩" (8 - (count : Int))
    pure (yellowSquares ++ greenSquares)
  else if activeCount = 2 then do
    let redSquares ← jsRepeat "🟧" count
    let yellowSquares ← jsRepeat "🟨" (8 - (count : Int))
    pure (redSquares ++ yellowSquares)
  else do
    let purpleSquares ← jsRepeat "🟥" count
    let redSquares ← jsRepeat "🟧" (8 - (count : Int))
    pure (purpleSquares ++ redSquares)

def logMessage (count activeCount : Nat) (progressBar : String) (shouldBeOnline : Bool) :
    String :=
  let onlineStatus := if shouldBeOnline then "Online 🟢" else "Offline ⚫"
  "📊 **Queue Update:**\n- Players in Queue: " ++ toString count ++ "/8\n- Progress: " ++
    progressBar ++ "\n- Active Queues: " ++ toString activeCount ++ "\n- Bot Status: " ++
    onlineStatus

def updateQueueInfo (st : State) (roster : FetchResult PlayersData)
    (active : FetchResult MatchData) (cl : Client) : CycleResult State :=
  let e0 : List Effect := [.log "🔄 Checking queue status..."]
  match getQueuePlayerCount roster with
  | (none, e1) =>
    ⟨st, e0 ++ e1 ++ [.log "⚠️ Skipping update (API unavailable)"], .skipped⟩
  | (some count, e1) =>
    match getActiveQueueCount active with
    | (activeCount, e2) =>
      if !hasChanged st count activeCount then
        ⟨st, e0 ++ e1 ++ e2 ++
          [.log ("⏭️ No changes (" ++ toString count ++ "/8, Active Queues: " ++
            toString activeCount ++ ")")], .unchanged⟩
      else
        let e3 : List Effect :=
          [.log ("📊 Change detected! Count: " ++ showNum st.previousCount ++ " → " ++
            toString count ++ ", Active Queues: " ++ showNum st.previousActiveCount ++ " → " ++
            toString activeCount)]
        let st1 : State := ⟨some count, some activeCount⟩
        let online := shouldBeOnline count activeCount
        let nick := nickname count activeCount
        match progressBar count activeCount with
        | .error err => ⟨st1, e0 ++ e1 ++ e2 ++ e3, .threw err⟩
        | .ok bar =>
          ⟨st1, e0 ++ e1 ++ e2 ++ e3 ++ updateStatus cl online ++ updatePresence cl bar ++
            updateNickname cl nick ++ logToChannel cl (logMessage count activeCount bar online),
            .published⟩

end Eu

/-! ## `src/br-queue/index.js` -/

namespace Br

def QUEUE_ID : String := "1429676494501711922"

/-- The module variables `previousCount` and `previousActive`. -/
structure State where
  previousCount : Option Nat
  previousActive : Option Bool
  deriving DecidableEq, Repr

/-- Both variables start as `null`. -/
def State.init : State := ⟨none, none⟩

def isActiveQueue : FetchResult MatchData → Bool × List Effect
  | .threw err => (false, [.error ("❌ Fetch Error (match): " ++ err)])
  | .notOk status => (false, [.error ("❌ NeatQueue Match Error: " ++ toString status)])
  | .ok data =>
    if data.keys = 0 then (false, [])
    else (includes data.text QUEUE_ID, [])

def hasChanged (st : State) (count : Nat) (isActive : Bool) : Bool :=
  some count != st.previousCount || some isActive != st.previousActive

def shouldBeOnline (count : Nat) (isActive : Bool) : Bool :=
  isActive || decide (count > 0)

def nickname (count : Nat) (isActive : Bool) : String :=
  if isActive then "Active - " ++ toString count ++ "/8 Next"
  else toString count ++ "/8 In Queue"

def progressBar (count : Nat) : Except String String := do
  let filledSquares ← jsRepeat "🟩" count
  let emptySquares ← jsRepeat "⬜" (8 - (count : Int))
  pure (filledSquares ++ emptySquares)

def logMessage (count : Nat) (isActive : Bool) (progressBar : String) (shouldBeOnline : Bool) :
    String :=
  let statusEmoji := if isActive then "✅" else "❌"
  let onlineStatus := if shouldBeOnline then "Online 🟢" else "Offline ⚫"
  "📊 **Queue Update:**\n- Players in Queue: " ++ toString count ++ "/8\n- Progress: " ++
    progressBar ++ "\n- Active Queue: " ++ (if isActive then "Yes" else "No") ++ " " ++
    statusEmoji ++ "\n- Bot Status: " ++ onlineStatus

def updateQueueInfo (st : State) (roster : FetchResult PlayersData)
    (active : FetchResult MatchData) (cl : Client) : CycleResult State :=
  let e0 : List Effect := [.log "🔄 Checking queue status..."]
  match getQueuePlayerCount roster with
  | (none, e1) =>
    ⟨st, e0 ++ e1 ++ [.log "⚠️ Skipping update (API unavailable)"], .skipped⟩
  | (some count, e1) =>
    match isActiveQueue active with
    | (isActive, e2) =>
      if !hasChanged st count isActive then
        ⟨st, e0 ++ e1 ++ e2 ++
          [.log ("⏭️ No changes (" ++ toString count ++ "/8, Active: " ++
            showBool (some isActive) ++ ")")], .unchanged⟩
      else
        let e3 : List Effect :=
          [.log ("📊 Change detected! Count: " ++ showNum st.previousCount ++ " → " ++
            toString count ++ ", Active: " ++ showBool st.previousActive ++ " → " ++
            showBool (some isActive))]
        let st1 : State := ⟨some count, some isActive⟩
        let online := shouldBeOnline count isActive
        let nick := nickname count isActive
        match progressBar count with
        | .error err => ⟨st1, e0 ++ e1 ++ e2 ++ e3, .threw err⟩
        | .ok bar =>
          ⟨st1, e0 ++ e1 ++ e2 ++ e3 ++ updateStatus cl online ++ updatePresence cl bar ++
            updateNickname cl nick ++ logToChannel cl (logMessage count isActive bar online),
            .published⟩

end Br

/-! ## `src/4 TDM Queue/index.js` -/

namespace Tdm

def QUEUE_ID : String := "1461474834725732385"

/-- The module variables `previousCount` and `previousActiveCount`. -/
structure State where
  previousCount : Option Nat
  previousActiveCount : Option Nat
  deriving DecidableEq, Repr

/-- Both variables start as `null`. -/
def State.init : State := ⟨none, none⟩

def getActiveQueueCount : FetchResult MatchData → Nat × List Effect
  | .threw err => (0, [.error ("❌ Fetch Error (match): " ++ err)])
  | .notOk status => (0, [.error ("❌ NeatQueue Match Error: " ++ toString status)])
  | .ok data =>
    if data.keys = 0 then (0, [])
    else (matchCount data.text QUEUE_ID, [])

def hasChanged (st : State) (count activeCount : Nat) : Bool :=
  some count != st.previousCount || some activeCount != st.previousActiveCount

def shouldBeOnline (count activeCount : Nat) : Bool :=
  decide (activeCount > 0) || decide (count > 0)

def nickname (count activeCount : Nat) : String :=
  if activeCount = 0 then toString count ++ "/16 In Queue"
  else toString activeCount ++ " Active (" ++ toString count ++ "/16 Next)"

/-- The local `filledBlocks = Math.floor(count / 2)`. -/
def filledBlocks (count : Nat) : Nat := count / 2

/-- The local `emptyBlocks = 8 - filledBlocks`. -/
def emptyBlocks (count : Nat) : Int := 8 - (filledBlocks count : Int)

def progressBar (count activeCount : Nat) : Except String String :=
  if activeCount = 0 then do
    let filledSquares ← jsRepeat "🟩" (filledBlocks count)
    let emptySquares ← jsRepeat "⬜" (emptyBlocks count)
    pure (filledSquares ++ emptySquares)
  else if activeCount = 1 then do
    let yellowSquares ← jsRepeat "🟨" (filledBlocks count)
    let greenSquares ← jsRepeat "🟩" (emptyBlocks count)
    pure (yellowSquares ++ greenSquares)
  else if activeCount = 2 then do
    let redSquares ← jsRepeat "🟧" (filledBlocks count)
    let yellowSquares ← jsRepeat "🟨" (emptyBlocks count)
    pure (redSquares ++ yellowSquares)
  else do
    let purpleSquares ← jsRepeat "🟥" (filledBlocks count)
    let redSquares ← jsRepeat "🟧" (emptyBlocks count)
    pure (purpleSquares ++ redSquares)

def logMessage (count activeCount : Nat) (progressBar : String) (shouldBeOnline : Bool) :
    String :=
  let onlineStatus := if shouldBeOnline then "Online 🟢" else "Offline ⚫"
  "📊 **Queue Update:**\n- Players in Queue: " ++ toString count ++ "/16\n- Progress: " ++
    progressBar ++ "\n- Active Queues: " ++ toString activeCount ++ "\n- Bot Status: " ++
    onlineStatus

def updateQueueInfo (st : State) (roster : FetchResult PlayersData)
    (active : FetchResult MatchData) (cl : Client) : CycleResult State :=
  let e0 : List Effect := [.log "🔄 Checking queue status..."]
  match getQueuePlayerCount roster with
  | (none, e1) =>
    ⟨st, e0 ++ e1 ++ [.log "⚠️ Skipping update (API unavailable)"], .skipped⟩
  | (some count, e1) =>
    match getActiveQueueCount active with
    | (activeCount, e2) =>
      if !hasChanged st count activeCount then
        ⟨st, e0 ++ e1 ++ e2 ++
          [.log ("⏭️ No changes (" ++ toString count ++ "/16, Active Queues: " ++
            toString activeCount ++ ")")], .unchanged⟩
      else
        let e3 : List Effect :=
          [.log ("📊 Change detected! Count: " ++ showNum st.previousCount ++ " → " ++
            toString count ++ ", Active Queues: " ++ showNum st.previousActiveCount ++ " → " ++
            toString activeCount)]
        let st1 : State := ⟨some count, some activeCount⟩
        let online := shouldBeOnline count activeCount
        let nick := nickname count activeCount
        match progressBar count activeCount with
        | .error err => ⟨st1, e0 ++ e1 ++ e2 ++ e3, .threw err⟩
        | .ok bar =>
          ⟨st1, e0 ++ e1 ++ e2 ++ e3 ++ updateStatus cl online ++ updatePresence cl bar ++
            updateNickname cl nick ++ logToChannel cl (logMessage count activeCount bar online),
            .published⟩

end Tdm

/-! ## Specification side

The definitions below follow the wording of the specification; the theorems
compare them with the definitions taken from the three source files. -/

/-- Decimal numeral of a natural number, most significant digit first. -/
def decimal (n : Nat) : String :=
  if n = 0 then "0" else String.mk ((Nat.digits 10 n).reverse.map Nat.digitChar)

/-- Nickname by tier as the specification words it.  The 8 player variants use
the short form at tier 1, the 16 player variant the numbered form. -/
def specNickname (capacity n t : Nat) : String :=
  if t = 0 then decimal n ++ "/" ++ decimal capacity ++ " In Queue"
  else if t = 1 then
    if capacity = 8 then "Active - " ++ decimal n ++ "/8 Next"
    else "1 Active (" ++ decimal n ++ "/16 Next)"
  else decimal t ++ " Active (" ++ decimal n ++ "/" ++ decimal capacity ++ " Next)"

/-- Green square, U+1F7E9. -/
def green : Char := '🟩'
/-- Gray (white large) square, U+2B1C. -/
def gray : Char := '⬜'
/-- Yellow square, U+1F7E8. -/
def yellow : Char := '🟨'
/-- Orange square, U+1F7E7. -/
def orange : Char := '🟧'
/-- Red square, U+1F7E5. -/
def red : Char := '🟥'
/-- Purple square, U+1F7EA. -/
def purple : Char := '🟪'

/-- Filled and empty glyph of a tier as the specification lists them. -/
def tierGlyphs (t : Nat) : Char × Char :=
  if t = 0 then (green, gray)
  else if t = 1 then (yellow, green)
  else if t = 2 then (red, yellow)
  else (purple, red)

/-- Filled and empty glyph that the four branches of the progress bar code in
`src/eu-queue/index.js` and `src/4 TDM Queue/index.js` pass to `repeat`: the
literal of `redSquares` is the orange square and the literal of
`purpleSquares` is the red square. -/
def sourceGlyphs (t : Nat) : Char × Char :=
  if t = 0 then (green, gray)
  else if t = 1 then (yellow, green)
  else if t = 2 then (orange, yellow)
  else (red, orange)

/-- A bar of `filled` copies of one glyph followed by `empty` copies of another. -/
def bar (filledGlyph emptyGlyph : Char) (filled empty : Nat) : String :=
  String.mk (List.replicate filled filledGlyph ++ List.replicate empty emptyGlyph)

/-- The specification formula `filledSlots = floor(n / (C/8))`. -/
def filledSlots (capacity n : Nat) : Nat := n / (capacity / 8)

/-- The specification formula `emptySlots = 8 - filledSlots`, over the integers. -/
def emptySlots (capacity n : Nat) : Int := 8 - (filledSlots capacity n : Int)

/-- The pattern `pat` occurs in `s` at position `i`. -/
def OccursAt (pat s : List Char) (i : Nat) : Prop :=
  i + pat.length ≤ s.length ∧ (s.drop i).take pat.length = pat

/-- The list `ps` holds the positions of the non-overlapping occurrences of
`pat` in `s` taken from left to right, searching from position `start`: every
entry is the leftmost occurrence that starts at or behind the end of the
previous one, and no occurrence is left behind the last entry. -/
inductive GreedyOccurrences (pat s : List Char) : Nat → List Nat → Prop where
  | done (start : Nat) :
      (∀ i, start ≤ i → ¬ OccursAt pat s i) → GreedyOccurrences pat s start []
  | next (start p : Nat) (ps : List Nat) :
      start ≤ p → OccursAt pat s p →
      (∀ i, start ≤ i → i < p → ¬ OccursAt pat s i) →
      GreedyOccurrences pat s (p + pat.length) ps →
      GreedyOccurrences pat s start (p :: ps)

/-- A chat client on which every call succeeds and the log channel is a text channel. -/
def Client.allOk : Client := ⟨none, none, none, none, none, .ok (some true), none⟩

/-- A chat client on which every call throws. -/
def Client.allFail : Client :=
  ⟨some "status", some "presence", some "guild", some "member", some "nickname",
    .error "channel", some "send"⟩

instance (pat s : List Char) (i : Nat) : Decidable (OccursAt pat s i) := by
  unfold OccursAt; infer_instance

/-- The values passed to `setStatus`, in program order. -/
def statusCalls (es : List Effect) : List String :=
  es.filterMap fun e => match e with
    | .setStatus s => some s
    | _ => none

/-- The activity names passed to `setPresence`, in program order. -/
def presenceCalls (es : List Effect) : List String :=
  es.filterMap fun e => match e with
    | .setPresence name _ => some name
    | _ => none

/-- The nicknames passed to `setNickname`, in program order. -/
def nicknameCalls (es : List Effect) : List String :=
  es.filterMap fun e => match e with
    | .setNickname nick => some nick
    | _ => none

/-- The calls made on the chat client, console output dropped. -/
def clientCalls (es : List Effect) : List Effect :=
  es.filter Effect.isClientCall

/-- Value of a decimal digit character. -/
def digitValue (c : Char) : Nat := c.toNat - 48

/-- The number that a decimal numeral denotes, most significant digit first. -/
def decodeDecimal (cs : List Char) : Nat :=
  Nat.ofDigits 10 ((cs.map digitValue).reverse)

/-! ## Auxiliary lemmas -/

theorem toDigitsCore_eq_digits (n : Nat) :
    ∀ (fuel : Nat) (ds : List Char), 0 < n → n < fuel →
      Nat.toDigitsCore 10 fuel n ds = (Nat.digits 10 n).reverse.map Nat.digitChar ++ ds := by
  induction n using Nat.strong_induction_on with
  | _ n ih =>
    intro fuel ds hpos hlt
    cases fuel with
    | zero => omega
    | succ fuel =>
      have hd : Nat.digits 10 n = (n % 10) :: Nat.digits 10 (n / 10) :=
        Nat.digits_def' (by norm_num) hpos
      rw [Nat.toDigitsCore, hd]
      by_cases hq : n / 10 = 0
      · simp [hq]
      · simp only [hq, if_false]
        rw [ih (n / 10) (by omega) fuel _ (by omega) (by omega)]
        simp

theorem toString_eq_decimal (n : Nat) : toString n = decimal n := by
  show Nat.repr n = decimal n
  unfold decimal Nat.repr Nat.toDigits
  by_cases h : n = 0
  · subst h; rfl
  · rw [if_neg h, toDigitsCore_eq_digits n (n + 1) [] (by omega) (by omega)]
    simp [List.asString]

theorem join_replicate_singleton (c : Char) (k : Nat) :
    String.join (List.replicate k (String.singleton c)) = String.mk (List.replicate k c) := by
  have key : ∀ (k : Nat) (acc : String),
      List.foldl (fun r s => r ++ s) acc (List.replicate k (String.singleton c)) =
        acc ++ String.mk (List.replicate k c) := by
    intro k
    induction k with
    | zero => intro acc; simp
    | succ k ih =>
      intro acc
      rw [List.replicate_succ, List.foldl_cons, ih]
      apply String.ext
      simp [String.singleton, List.replicate_succ]
  have := key k ""
  simpa [String.join] using this

theorem jsRepeat_glyph (c : Char) (k : Nat) :
    jsRepeat (String.singleton c) (k : Int) = .ok (String.mk (List.replicate k c)) := by
  unfold jsRepeat
  rw [if_neg (by omega), Int.toNat_ofNat, join_replicate_singleton]

theorem jsRepeat_glyph_sub (c : Char) (k : Nat) (h : k ≤ 8) :
    jsRepeat (String.singleton c) (8 - (k : Int)) = .ok (String.mk (List.replicate (8 - k) c)) := by
  have : (8 - (k : Int)) = ((8 - k : Nat) : Int) := by omega
  rw [this, jsRepeat_glyph]

theorem jsRepeat_neg (s : String) (z : Int) (h : z < 0) :
    jsRepeat s z = .error ("RangeError: Invalid count value: " ++ toString z) := by
  unfold jsRepeat
  rw [if_pos h]

theorem bar_length (f e : Char) (a b : Nat) : (bar f e a b).length = a + b := by
  simp [bar, String.length]

/-! ### Progress bars -/

theorem glyph_literals :
    ("🟩" : String) = String.singleton green ∧ ("⬜" : String) = String.singleton gray ∧
    ("🟨" : String) = String.singleton yellow ∧ ("🟧" : String) = String.singleton orange ∧
    ("🟥" : String) = String.singleton red := ⟨rfl, rfl, rfl, rfl, rfl⟩

theorem bind_ok_bar (f e : Char) (a b : Nat) :
    (do
      let x ← (Except.ok (String.mk (List.replicate a f)) : Except String String)
      let y ← (Except.ok (String.mk (List.replicate b e)) : Except String String)
      pure (x ++ y)) = Except.ok (bar f e a b) := by
  show Except.ok _ = Except.ok _
  congr 1

theorem progressBar_ok_eu (n t : Nat) (h : n ≤ 8) :
    Eu.progressBar n t = .ok (bar (sourceGlyphs t).1 (sourceGlyphs t).2 n (8 - n)) := by
  obtain ⟨h1, h2, h3, h4, h5⟩ := glyph_literals
  unfold Eu.progressBar sourceGlyphs
  rw [h1, h2, h3, h4, h5]
  simp only [jsRepeat_glyph, jsRepeat_glyph_sub _ _ h, bind_ok_bar]
  split_ifs <;> rfl

theorem progressBar_ok_br (n : Nat) (h : n ≤ 8) :
    Br.progressBar n = .ok (bar green gray n (8 - n)) := by
  obtain ⟨h1, h2, -, -, -⟩ := glyph_literals
  unfold Br.progressBar
  rw [h1, h2]
  simp only [jsRepeat_glyph, jsRepeat_glyph_sub _ _ h, bind_ok_bar]

theorem progressBar_ok_tdm (n t : Nat) (h : n ≤ 17) :
    Tdm.progressBar n t = .ok (bar (sourceGlyphs t).1 (sourceGlyphs t).2 (n / 2) (8 - n / 2)) := by
  obtain ⟨h1, h2, h3, h4, h5⟩ := glyph_literals
  have hk : n / 2 ≤ 8 := by omega
  unfold Tdm.progressBar sourceGlyphs Tdm.emptyBlocks Tdm.filledBlocks
  rw [h1, h2, h3, h4, h5]
  simp only [jsRepeat_glyph, jsRepeat_glyph_sub _ _ hk, bind_ok_bar]
  split_ifs <;> rfl

theorem progressBar_error_eu (n t : Nat) (h : 8 < n) :
    Eu.progressBar n t = .error ("RangeError: Invalid count value: " ++ toString (8 - (n : Int))) := by
  obtain ⟨h1, h2, h3, h4, h5⟩ := glyph_literals
  unfold Eu.progressBar
  rw [h1, h2, h3, h4, h5]
  simp only [jsRepeat_glyph, jsRepeat_neg _ (8 - (n : Int)) (by omega)]
  split_ifs <;> rfl

/-! ### One cycle -/

theorem clientCalls_append (a b : List Effect) :
    clientCalls (a ++ b) = clientCalls a ++ clientCalls b := by
  simp [clientCalls]

theorem clientCalls_log (line : String) (es : List Effect) :
    clientCalls (.log line :: es) = clientCalls es := by
  simp [clientCalls, Effect.isClientCall]

theorem clientCalls_error (line : String) (es : List Effect) :
    clientCalls (.error line :: es) = clientCalls es := by
  simp [clientCalls, Effect.isClientCall]

theorem clientCalls_nil : clientCalls [] = [] := rfl

theorem clientCalls_getQueuePlayerCount (roster : FetchResult PlayersData) :
    clientCalls (getQueuePlayerCount roster).2 = [] := by
  cases roster with
  | threw err => rfl
  | notOk status => rfl
  | ok data => cases h : data.players <;> simp [getQueuePlayerCount, h, clientCalls]

theorem clientCalls_getActiveQueueCount_eu (active : FetchResult MatchData) :
    clientCalls (Eu.getActiveQueueCount active).2 = [] := by
  cases active with
  | threw err => rfl
  | notOk status => rfl
  | ok data => by_cases h : data.keys = 0 <;> simp [Eu.getActiveQueueCount, h, clientCalls]

theorem clientCalls_updateStatus (cl : Client) (b : Bool) :
    clientCalls (updateStatus cl b) = [.setStatus (if b then "online" else "invisible")] := by
  cases b <;> cases h : cl.setStatus <;> simp [updateStatus, h, clientCalls, Effect.isClientCall]

theorem clientCalls_updatePresence (cl : Client) (bar : String) :
    clientCalls (updatePresence cl bar) = [.setPresence bar 4] := by
  cases h : cl.setPresence <;> simp [updatePresence, h, clientCalls, Effect.isClientCall]

theorem statusCalls_clientCalls (es : List Effect) :
    statusCalls (clientCalls es) = statusCalls es := by
  induction es with
  | nil => rfl
  | cons e es ih =>
    cases e <;> simp_all [statusCalls, clientCalls, Effect.isClientCall, List.filter_cons]

theorem presenceCalls_clientCalls (es : List Effect) :
    presenceCalls (clientCalls es) = presenceCalls es := by
  induction es with
  | nil => rfl
  | cons e es ih =>
    cases e <;> simp_all [presenceCalls, clientCalls, Effect.isClientCall, List.filter_cons]

theorem statusCalls_updateNickname (cl : Client) (nick : String) :
    statusCalls (updateNickname cl nick) = [] := by
  unfold updateNickname
  cases cl.guildsFetch <;> cases cl.fetchMe <;> cases cl.setNickname <;> simp [statusCalls]

theorem presenceCalls_updateNickname (cl : Client) (nick : String) :
    presenceCalls (updateNickname cl nick) = [] := by
  unfold updateNickname
  cases cl.guildsFetch <;> cases cl.fetchMe <;> cases cl.setNickname <;> simp [presenceCalls]

theorem statusCalls_logToChannel (cl : Client) (msg : String) :
    statusCalls (logToChannel cl msg) = [] := by
  unfold logToChannel
  rcases cl.channelsFetch with m | _ | _ | _ <;> cases cl.send <;> simp [statusCalls]

theorem presenceCalls_logToChannel (cl : Client) (msg : String) :
    presenceCalls (logToChannel cl msg) = [] := by
  unfold logToChannel
  rcases cl.channelsFetch with m | _ | _ | _ <;> cases cl.send <;> simp [presenceCalls]

/-- The client calls of the four publishing blocks: one status write, one
presence write, then the nickname and log blocks. -/
theorem clientCalls_publish (pre : List Effect) (cl : Client) (online : Bool)
    (bar nick msg : String) (hpre : clientCalls pre = []) :
    clientCalls (pre ++ updateStatus cl online ++ updatePresence cl bar ++
        updateNickname cl nick ++ logToChannel cl msg) =
      [.setStatus (if online then "online" else "invisible"), .setPresence bar 4] ++
        clientCalls (updateNickname cl nick) ++ clientCalls (logToChannel cl msg) := by
  simp [clientCalls_append, hpre, clientCalls_updateStatus, clientCalls_updatePresence]

theorem cycle_skipped_eu (st : Eu.State) (roster : FetchResult PlayersData)
    (active : FetchResult MatchData) (cl : Client)
    (h : (getQueuePlayerCount roster).1 = none) :
    (Eu.updateQueueInfo st roster active cl).state = st ∧
    (Eu.updateQueueInfo st roster active cl).outcome = .skipped ∧
    clientCalls (Eu.updateQueueInfo st roster active cl).effects = [] := by
  have he := clientCalls_getQueuePlayerCount roster
  unfold Eu.updateQueueInfo
  rcases hq : getQueuePlayerCount roster with ⟨c, e1⟩
  rw [hq] at h he
  simp only at h he
  subst h
  simp [clientCalls_append, clientCalls_log, clientCalls_nil, he]

theorem cycle_unchanged_eu (st : Eu.State) (roster : FetchResult PlayersData)
    (active : FetchResult MatchData) (cl : Client) (n : Nat)
    (h : (getQueuePlayerCount roster).1 = some n)
    (hc : Eu.hasChanged st n (Eu.getActiveQueueCount active).1 = false) :
    (Eu.updateQueueInfo st roster active cl).state = st ∧
    (Eu.updateQueueInfo st roster active cl).outcome = .unchanged ∧
    clientCalls (Eu.updateQueueInfo st roster active cl).effects = [] := by
  have he := clientCalls_getQueuePlayerCount roster
  have ha := clientCalls_getActiveQueueCount_eu active
  unfold Eu.updateQueueInfo
  rcases hq : getQueuePlayerCount roster with ⟨c, e1⟩
  rw [hq] at h he
  simp only at h he
  subst h
  rcases hq2 : Eu.getActiveQueueCount active with ⟨t, e2⟩
  rw [hq2] at hc ha
  simp only at hc ha
  simp [hc, clientCalls_append, clientCalls_log, clientCalls_nil, he, ha]

theorem cycle_changed_eu (st : Eu.State) (roster : FetchResult PlayersData)
    (active : FetchResult MatchData) (cl : Client) (n : Nat)
    (h : (getQueuePlayerCount roster).1 = some n)
    (hc : Eu.hasChanged st n (Eu.getActiveQueueCount active).1 = true) :
    (Eu.updateQueueInfo st roster active cl).state =
        ⟨some n, some (Eu.getActiveQueueCount active).1⟩ ∧
    (∀ err, Eu.progressBar n (Eu.getActiveQueueCount active).1 = .error err →
      (Eu.updateQueueInfo st roster active cl).outcome = .threw err ∧
      clientCalls (Eu.updateQueueInfo st roster active cl).effects = []) ∧
    (∀ b, Eu.progressBar n (Eu.getActiveQueueCount active).1 = .ok b →
      (Eu.updateQueueInfo st roster active cl).outcome = .published ∧
      clientCalls (Eu.updateQueueInfo st roster active cl).effects =
        [.setStatus
            (if Eu.shouldBeOnline n (Eu.getActiveQueueCount active).1 then "online"
              else "invisible"),
          .setPresence b 4] ++
        clientCalls (updateNickname cl (Eu.nickname n (Eu.getActiveQueueCount active).1)) ++
        clientCalls (logToChannel cl (Eu.logMessage n (Eu.getActiveQueueCount active).1 b
          (Eu.shouldBeOnline n (Eu.getActiveQueueCount active).1)))) := by
  have he := clientCalls_getQueuePlayerCount roster
  have ha := clientCalls_getActiveQueueCount_eu active
  unfold Eu.updateQueueInfo
  rcases hq : getQueuePlayerCount roster with ⟨c, e1⟩
  rw [hq] at h he
  simp only at h he
  subst h
  rcases hq2 : Eu.getActiveQueueCount active with ⟨t, e2⟩
  rw [hq2] at hc ha
  simp only at hc ha
  simp only [hc, Bool.not_true, Bool.false_eq_true, if_false]
  refine ⟨?_, ?_, ?_⟩
  · cases Eu.progressBar n t <;> rfl
  · intro err herr
    rw [herr]
    simp [clientCalls_append, clientCalls_log, clientCalls_nil, he, ha]
  · intro b hb
    rw [hb]
    refine ⟨rfl, ?_⟩
    simp only
    rw [clientCalls_publish]
    simp [clientCalls_append, clientCalls_log, clientCalls_nil, he, ha]

theorem clientCalls_isActiveQueue_br (active : FetchResult MatchData) :
    clientCalls (Br.isActiveQueue active).2 = [] := by
  cases active with
  | threw err => rfl
  | notOk status => rfl
  | ok data => by_cases h : data.keys = 0 <;> simp [Br.isActiveQueue, h, clientCalls]

theorem cycle_skipped_br (st : Br.State) (roster : FetchResult PlayersData)
    (active : FetchResult MatchData) (cl : Client)
    (h : (getQueuePlayerCount roster).1 = none) :
    (Br.updateQueueInfo st roster active cl).state = st ∧
    (Br.updateQueueInfo st roster active cl).outcome = .skipped ∧
    clientCalls (Br.updateQueueInfo st roster active cl).effects = [] := by
  have he := clientCalls_getQueuePlayerCount roster
  unfold Br.updateQueueInfo
  rcases hq : getQueuePlayerCount roster with ⟨c, e1⟩
  rw [hq] at h he
  simp only at h he
  subst h
  simp [clientCalls_append, clientCalls_log, clientCalls_nil, he]

theorem cycle_unchanged_br (st : Br.State) (roster : FetchResult PlayersData)
    (active : FetchResult MatchData) (cl : Client) (n : Nat)
    (h : (getQueuePlayerCount roster).1 = some n)
    (hc : Br.hasChanged st n (Br.isActiveQueue active).1 = false) :
    (Br.updateQueueInfo st roster active cl).state = st ∧
    (Br.updateQueueInfo st roster active cl).outcome = .unchanged ∧
    clientCalls (Br.updateQueueInfo st roster active cl).effects = [] := by
  have he := clientCalls_getQueuePlayerCount roster
  have ha := clientCalls_isActiveQueue_br active
  unfold Br.updateQueueInfo
  rcases hq : getQueuePlayerCount roster with ⟨c, e1⟩
  rw [hq] at h he
  simp only at h he
  subst h
  rcases hq2 : Br.isActiveQueue active with ⟨t, e2⟩
  rw [hq2] at hc ha
  simp only at hc ha
  simp [hc, clientCalls_append, clientCalls_log, clientCalls_nil, he, ha]

theorem cycle_changed_br (st : Br.State) (roster : FetchResult PlayersData)
    (active : FetchResult MatchData) (cl : Client) (n : Nat)
    (h : (getQueuePlayerCount roster).1 = some n)
    (hc : Br.hasChanged st n (Br.isActiveQueue active).1 = true) :
    (Br.updateQueueInfo st roster active cl).state =
        ⟨some n, some (Br.isActiveQueue active).1⟩ ∧
    (∀ err, Br.progressBar n = .error err →
      (Br.updateQueueInfo st roster active cl).outcome = .threw err ∧
      clientCalls (Br.updateQueueInfo st roster active cl).effects = []) ∧
    (∀ b, Br.progressBar n = .ok b →
      (Br.updateQueueInfo st roster active cl).outcome = .published ∧
      clientCalls (Br.updateQueueInfo st roster active cl).effects =
        [.setStatus
            (if Br.shouldBeOnline n (Br.isActiveQueue active).1 then "online"
              else "invisible"),
          .setPresence b 4] ++
        clientCalls (updateNickname cl (Br.nickname n (Br.isActiveQueue active).1)) ++
        clientCalls (logToChannel cl (Br.logMessage n (Br.isActiveQueue active).1 b
          (Br.shouldBeOnline n (Br.isActiveQueue active).1)))) := by
  have he := clientCalls_getQueuePlayerCount roster
  have ha := clientCalls_isActiveQueue_br active
  unfold Br.updateQueueInfo
  rcases hq : getQueuePlayerCount roster with ⟨c, e1⟩
  rw [hq] at h he
  simp only at h he
  subst h
  rcases hq2 : Br.isActiveQueue active with ⟨t, e2⟩
  rw [hq2] at hc ha
  simp only at hc ha
  simp only [hc, Bool.not_true, Bool.false_eq_true, if_false]
  refine ⟨?_, ?_, ?_⟩
  · cases Br.progressBar n <;> rfl
  · intro err herr
    rw [herr]
    simp [clientCalls_append, clientCalls_log, clientCalls_nil, he, ha]
  · intro b hb
    rw [hb]
    refine ⟨rfl, ?_⟩
    simp only
    rw [clientCalls_publish]
    simp [clientCalls_append, clientCalls_log, clientCalls_nil, he, ha]

theorem clientCalls_getActiveQueueCount_tdm (active : FetchResult MatchData) :
    clientCalls (Tdm.getActiveQueueCount active).2 = [] := by
  cases active with
  | threw err => rfl
  | notOk status => rfl
  | ok data => by_cases h : data.keys = 0 <;> simp [Tdm.getActiveQueueCount, h, clientCalls]

theorem cycle_skipped_tdm (st : Tdm.State) (roster : FetchResult PlayersData)
    (active : FetchResult MatchData) (cl : Client)
    (h : (getQueuePlayerCount roster).1 = none) :
    (Tdm.updateQueueInfo st roster active cl).state = st ∧
    (Tdm.updateQueueInfo st roster active cl).outcome = .skipped ∧
    clientCalls (Tdm.updateQueueInfo st roster active cl).effects = [] := by
  have he := clientCalls_getQueuePlayerCount roster
  unfold Tdm.updateQueueInfo
  rcases hq : getQueuePlayerCount roster with ⟨c, e1⟩
  rw [hq] at h he
  simp only at h he
  subst h
  simp [clientCalls_append, clientCalls_log, clientCalls_nil, he]

theorem cycle_unchanged_tdm (st : Tdm.State) (roster : FetchResult PlayersData)
    (active : FetchResult MatchData) (cl : Client) (n : Nat)
    (h : (getQueuePlayerCount roster).1 = some n)
    (hc : Tdm.hasChanged st n (Tdm.getActiveQueueCount active).1 = false) :
    (Tdm.updateQueueInfo st roster active cl).state = st ∧
    (Tdm.updateQueueInfo st roster active cl).outcome = .unchanged ∧
    clientCalls (Tdm.updateQueueInfo st roster active cl).effects = [] := by
  have he := clientCalls_getQueuePlayerCount roster
  have ha := clientCalls_getActiveQueueCount_tdm active
  unfold Tdm.updateQueueInfo
  rcases hq : getQueuePlayerCount roster with ⟨c, e1⟩
  rw [hq] at h he
  simp only at h he
  subst h
  rcases hq2 : Tdm.getActiveQueueCount active with ⟨t, e2⟩
  rw [hq2] at hc ha
  simp only at hc ha
  simp [hc, clientCalls_append, clientCalls_log, clientCalls_nil, he, ha]

theorem cycle_changed_tdm (st : Tdm.State) (roster : FetchResult PlayersData)
    (active : FetchResult MatchData) (cl : Client) (n : Nat)
    (h : (getQueuePlayerCount roster).1 = some n)
    (hc : Tdm.hasChanged st n (Tdm.getActiveQueueCount active).1 = true) :
    (Tdm.updateQueueInfo st roster active cl).state =
        ⟨some n, some (Tdm.getActiveQueueCount active).1⟩ ∧
    (∀ err, Tdm.progressBar n (Tdm.getActiveQueueCount active).1 = .error err →
      (Tdm.updateQueueInfo st roster active cl).outcome = .threw err ∧
      clientCalls (Tdm.updateQueueInfo st roster active cl).effects = []) ∧
    (∀ b, Tdm.progressBar n (Tdm.getActiveQueueCount active).1 = .ok b →
      (Tdm.updateQueueInfo st roster active cl).outcome = .published ∧
      clientCalls (Tdm.updateQueueInfo st roster active cl).effects =
        [.setStatus
            (if Tdm.shouldBeOnline n (Tdm.getActiveQueueCount active).1 then "online"
              else "invisible"),
          .setPresence b 4] ++
        clientCalls (updateNickname cl (Tdm.nickname n (Tdm.getActiveQueueCount active).1)) ++
        clientCalls (logToChannel cl (Tdm.logMessage n (Tdm.getActiveQueueCount active).1 b
          (Tdm.shouldBeOnline n (Tdm.getActiveQueueCount active).1)))) := by
  have he := clientCalls_getQueuePlayerCount roster
  have ha := clientCalls_getActiveQueueCount_tdm active
  unfold Tdm.updateQueueInfo
  rcases hq : getQueuePlayerCount roster with ⟨c, e1⟩
  rw [hq] at h he
  simp only at h he
  subst h
  rcases hq2 : Tdm.getActiveQueueCount active with ⟨t, e2⟩
  rw [hq2] at hc ha
  simp only at hc ha
  simp only [hc, Bool.not_true, Bool.false_eq_true, if_false]
  refine ⟨?_, ?_, ?_⟩
  · cases Tdm.progressBar n t <;> rfl
  · intro err herr
    rw [herr]
    simp [clientCalls_append, clientCalls_log, clientCalls_nil, he, ha]
  · intro b hb
    rw [hb]
    refine ⟨rfl, ?_⟩
    simp only
    rw [clientCalls_publish]
    simp [clientCalls_append, clientCalls_log, clientCalls_nil, he, ha]

theorem getQueuePlayerCount_none_iff (roster : FetchResult PlayersData) :
    (getQueuePlayerCount roster).1 = none ↔ ∀ data, roster ≠ .ok data := by
  cases roster with
  | threw err => simp [getQueuePlayerCount]
  | notOk status => simp [getQueuePlayerCount]
  | ok data => cases h : data.players <;> simp [getQueuePlayerCount, h]

theorem hasChanged_iff_eu (st : Eu.State) (n t : Nat) :
    Eu.hasChanged st n t = true ↔
      (some n ≠ st.previousCount ∨ some t ≠ st.previousActiveCount) := by
  simp [Eu.hasChanged]

theorem hasChanged_iff_br (st : Br.State) (n : Nat) (a : Bool) :
    Br.hasChanged st n a = true ↔
      (some n ≠ st.previousCount ∨ some a ≠ st.previousActive) := by
  simp [Br.hasChanged]

theorem hasChanged_iff_tdm (st : Tdm.State) (n t : Nat) :
    Tdm.hasChanged st n t = true ↔
      (some n ≠ st.previousCount ∨ some t ≠ st.previousActiveCount) := by
  simp [Tdm.hasChanged]

theorem emits_eu (st : Eu.State) (roster : FetchResult PlayersData)
    (active : FetchResult MatchData) (cl : Client) (n : Nat)
    (h : (getQueuePlayerCount roster).1 = some n) (hn : n ≤ 8) :
    ((some n ≠ st.previousCount ∨
        some (Eu.getActiveQueueCount active).1 ≠ st.previousActiveCount) →
      (Eu.updateQueueInfo st roster active cl).outcome = .published ∧
      (Eu.updateQueueInfo st roster active cl).state =
        ⟨some n, some (Eu.getActiveQueueCount active).1⟩ ∧
      ∃ b, Eu.progressBar n (Eu.getActiveQueueCount active).1 = .ok b ∧
        clientCalls (Eu.updateQueueInfo st roster active cl).effects =
          [.setStatus
              (if Eu.shouldBeOnline n (Eu.getActiveQueueCount active).1 then "online"
                else "invisible"),
            .setPresence b 4] ++
          clientCalls (updateNickname cl (Eu.nickname n (Eu.getActiveQueueCount active).1)) ++
          clientCalls (logToChannel cl (Eu.logMessage n (Eu.getActiveQueueCount active).1 b
            (Eu.shouldBeOnline n (Eu.getActiveQueueCount active).1)))) ∧
    ((Eu.updateQueueInfo st roster active cl).outcome = .published ↔
      (some n ≠ st.previousCount ∨
        some (Eu.getActiveQueueCount active).1 ≠ st.previousActiveCount)) ∧
    (clientCalls (Eu.updateQueueInfo st roster active cl).effects ≠ [] ↔
      (some n ≠ st.previousCount ∨
        some (Eu.getActiveQueueCount active).1 ≠ st.previousActiveCount)) := by
  rw [← hasChanged_iff_eu]
  cases hc : Eu.hasChanged st n (Eu.getActiveQueueCount active).1
  · have hu := cycle_unchanged_eu st roster active cl n h hc
    simp [hu.2.1, hu.2.2]
  · have hch := cycle_changed_eu st roster active cl n h hc
    have hb := progressBar_ok_eu n (Eu.getActiveQueueCount active).1 hn
    have hp := hch.2.2 _ hb
    refine ⟨fun _ => ⟨hp.1, hch.1, _, hb, hp.2⟩, by simp [hp.1], ?_⟩
    rw [hp.2]
    simp

theorem emits_br (st : Br.State) (roster : FetchResult PlayersData)
    (active : FetchResult MatchData) (cl : Client) (n : Nat)
    (h : (getQueuePlayerCount roster).1 = some n) (hn : n ≤ 8) :
    ((some n ≠ st.previousCount ∨ some (Br.isActiveQueue active).1 ≠ st.previousActive) →
      (Br.updateQueueInfo st roster active cl).outcome = .published ∧
      (Br.updateQueueInfo st roster active cl).state =
        ⟨some n, some (Br.isActiveQueue active).1⟩ ∧
      ∃ b, Br.progressBar n = .ok b ∧
        clientCalls (Br.updateQueueInfo st roster active cl).effects =
          [.setStatus
              (if Br.shouldBeOnline n (Br.isActiveQueue active).1 then "online"
                else "invisible"),
            .setPresence b 4] ++
          clientCalls (updateNickname cl (Br.nickname n (Br.isActiveQueue active).1)) ++
          clientCalls (logToChannel cl (Br.logMessage n (Br.isActiveQueue active).1 b
            (Br.shouldBeOnline n (Br.isActiveQueue active).1)))) ∧
    ((Br.updateQueueInfo st roster active cl).outcome = .published ↔
      (some n ≠ st.previousCount ∨ some (Br.isActiveQueue active).1 ≠ st.previousActive)) ∧
    (clientCalls (Br.updateQueueInfo st roster active cl).effects ≠ [] ↔
      (some n ≠ st.previousCount ∨ some (Br.isActiveQueue active).1 ≠ st.previousActive)) := by
  rw [← hasChanged_iff_br]
  cases hc : Br.hasChanged st n (Br.isActiveQueue active).1
  · have hu := cycle_unchanged_br st roster active cl n h hc
    simp [hu.2.1, hu.2.2]
  · have hch := cycle_changed_br st roster active cl n h hc
    have hb := progressBar_ok_br n hn
    have hp := hch.2.2 _ hb
    refine ⟨fun _ => ⟨hp.1, hch.1, _, hb, hp.2⟩, by simp [hp.1], ?_⟩
    rw [hp.2]
    simp

theorem emits_tdm (st : Tdm.State) (roster : FetchResult PlayersData)
    (active : FetchResult MatchData) (cl : Client) (n : Nat)
    (h : (getQueuePlayerCount roster).1 = some n) (hn : n ≤ 17) :
    ((some n ≠ st.previousCount ∨
        some (Tdm.getActiveQueueCount active).1 ≠ st.previousActiveCount) →
      (Tdm.updateQueueInfo st roster active cl).outcome = .published ∧
      (Tdm.updateQueueInfo st roster active cl).state =
        ⟨some n, some (Tdm.getActiveQueueCount active).1⟩ ∧
      ∃ b, Tdm.progressBar n (Tdm.getActiveQueueCount active).1 = .ok b ∧
        clientCalls (Tdm.updateQueueInfo st roster active cl).effects =
          [.setStatus
              (if Tdm.shouldBeOnline n (Tdm.getActiveQueueCount active).1 then "online"
                else "invisible"),
            .setPresence b 4] ++
          clientCalls (updateNickname cl (Tdm.nickname n (Tdm.getActiveQueueCount active).1)) ++
          clientCalls (logToChannel cl (Tdm.logMessage n (Tdm.getActiveQueueCount active).1 b
            (Tdm.shouldBeOnline n (Tdm.getActiveQueueCount active).1)))) ∧
    ((Tdm.updateQueueInfo st roster active cl).outcome = .published ↔
      (some n ≠ st.previousCount ∨
        some (Tdm.getActiveQueueCount active).1 ≠ st.previousActiveCount)) ∧
    (clientCalls (Tdm.updateQueueInfo st roster active cl).effects ≠ [] ↔
      (some n ≠ st.previousCount ∨
        some (Tdm.getActiveQueueCount active).1 ≠ st.previousActiveCount)) := by
  rw [← hasChanged_iff_tdm]
  cases hc : Tdm.hasChanged st n (Tdm.getActiveQueueCount active).1
  · have hu := cycle_unchanged_tdm st roster active cl n h hc
    simp [hu.2.1, hu.2.2]
  · have hch := cycle_changed_tdm st roster active cl n h hc
    have hb := progressBar_ok_tdm n (Tdm.getActiveQueueCount active).1 hn
    have hp := hch.2.2 _ hb
    refine ⟨fun _ => ⟨hp.1, hch.1, _, hb, hp.2⟩, by simp [hp.1], ?_⟩
    rw [hp.2]
    simp

/-! ## The claims -/

/-- C1 (counterexample): a first cycle, on the stored state null/null, that
observes 9 players in an 8 player variant or 18 players in the 16 player
variant detects a change but does not publish: rendering throws and no call
is made on the chat client; the same holds on a stored state of 8 players. -/
theorem changed_cycle_above_capacity_emits_nothing :
    ((some 9 ≠ Eu.State.init.previousCount ∨
        some (Eu.getActiveQueueCount (.ok ⟨0, "{}"⟩)).1 ≠ Eu.State.init.previousActiveCount) ∧
      (Eu.updateQueueInfo Eu.State.init (.ok ⟨some 9⟩) (.ok ⟨0, "{}"⟩) Client.allOk).outcome ≠
        .published ∧
      clientCalls (Eu.updateQueueInfo Eu.State.init (.ok ⟨some 9⟩) (.ok ⟨0, "{}"⟩)
        Client.allOk).effects = [] ∧
      clientCalls (Eu.updateQueueInfo ⟨some 8, some 0⟩ (.ok ⟨some 9⟩) (.ok ⟨0, "{}"⟩)
        Client.allOk).effects = []) ∧
    ((some 9 ≠ Br.State.init.previousCount ∨
        some (Br.isActiveQueue (.ok ⟨0, "{}"⟩)).1 ≠ Br.State.init.previousActive) ∧
      (Br.updateQueueInfo Br.State.init (.ok ⟨some 9⟩) (.ok ⟨0, "{}"⟩) Client.allOk).outcome ≠
        .published ∧
      clientCalls (Br.updateQueueInfo Br.State.init (.ok ⟨some 9⟩) (.ok ⟨0, "{}"⟩)
        Client.allOk).effects = [] ∧
      clientCalls (Br.updateQueueInfo ⟨some 8, some false⟩ (.ok ⟨some 9⟩) (.ok ⟨0, "{}"⟩)
        Client.allOk).effects = []) ∧
    ((some 18 ≠ Tdm.State.init.previousCount ∨
        some (Tdm.getActiveQueueCount (.ok ⟨0, "{}"⟩)).1 ≠
          Tdm.State.init.previousActiveCount) ∧
      (Tdm.updateQueueInfo Tdm.State.init (.ok ⟨some 18⟩) (.ok ⟨0, "{}"⟩)
        Client.allOk).outcome ≠ .published ∧
      clientCalls (Tdm.updateQueueInfo Tdm.State.init (.ok ⟨some 18⟩) (.ok ⟨0, "{}"⟩)
        Client.allOk).effects = [] ∧
      clientCalls (Tdm.updateQueueInfo ⟨some 16, some 0⟩ (.ok ⟨some 18⟩) (.ok ⟨0, "{}"⟩)
        Client.allOk).effects = []) := by
  refine ⟨⟨Or.inl (by decide), by decide, by decide, by decide⟩,
    ⟨Or.inl (by decide), by decide, by decide, by decide⟩,
    ⟨Or.inl (by decide), by decide, by decide, by decide⟩⟩

/-- C1 (amended): in each variant, for a cycle whose roster query gave a count
`n` for which rendering succeeds (at most 8 players in the 8 player variants,
at most 17 in the 16 player variant), the cycle publishes, and makes a call on
the chat client, if and only if `n` differs from `previousCount` or the active
value differs from the stored one.  When it does, the state becomes the
observation and the client calls are one status write, one presence write with
the rendered bar, then those of the nickname and log blocks; in particular the
first such cycle, on the stored state null/null, always publishes.  A cycle
where both fields equal the stored ones, for any count, returns at the change
check, leaves the state alone and makes no call on the chat client. -/
theorem change_gate_within_capacity :
    (∀ (st : Eu.State) (roster : FetchResult PlayersData) (active : FetchResult MatchData)
        (cl : Client) (n : Nat), (getQueuePlayerCount roster).1 = some n →
      (some n = st.previousCount ∧
          some (Eu.getActiveQueueCount active).1 = st.previousActiveCount →
        (Eu.updateQueueInfo st roster active cl).outcome = .unchanged ∧
        (Eu.updateQueueInfo st roster active cl).state = st ∧
        clientCalls (Eu.updateQueueInfo st roster active cl).effects = []) ∧
      (n ≤ 8 →
        ((Eu.updateQueueInfo st roster active cl).outcome = .published ↔
          (some n ≠ st.previousCount ∨
            some (Eu.getActiveQueueCount active).1 ≠ st.previousActiveCount)) ∧
        (clientCalls (Eu.updateQueueInfo st roster active cl).effects ≠ [] ↔
          (some n ≠ st.previousCount ∨
            some (Eu.getActiveQueueCount active).1 ≠ st.previousActiveCount)) ∧
        ((some n ≠ st.previousCount ∨
            some (Eu.getActiveQueueCount active).1 ≠ st.previousActiveCount) →
          (Eu.updateQueueInfo st roster active cl).state =
            ⟨some n, some (Eu.getActiveQueueCount active).1⟩ ∧
          ∃ b, Eu.progressBar n (Eu.getActiveQueueCount active).1 = .ok b ∧
            clientCalls (Eu.updateQueueInfo st roster active cl).effects =
              [.setStatus
                  (if Eu.shouldBeOnline n (Eu.getActiveQueueCount active).1 then "online"
                    else "invisible"),
                .setPresence b 4] ++
              clientCalls
                (updateNickname cl (Eu.nickname n (Eu.getActiveQueueCount active).1)) ++
              clientCalls (logToChannel cl
                (Eu.logMessage n (Eu.getActiveQueueCount active).1 b
                  (Eu.shouldBeOnline n (Eu.getActiveQueueCount active).1)))) ∧
        (Eu.updateQueueInfo Eu.State.init roster active cl).outcome = .published ∧
        clientCalls (Eu.updateQueueInfo Eu.State.init roster active cl).effects ≠ [])) ∧
    (∀ (st : Br.State) (roster : FetchResult PlayersData) (active : FetchResult MatchData)
        (cl : Client) (n : Nat), (getQueuePlayerCount roster).1 = some n →
      (some n = st.previousCount ∧ some (Br.isActiveQueue active).1 = st.previousActive →
        (Br.updateQueueInfo st roster active cl).outcome = .unchanged ∧
        (Br.updateQueueInfo st roster active cl).state = st ∧
        clientCalls (Br.updateQueueInfo st roster active cl).effects = []) ∧
      (n ≤ 8 →
        ((Br.updateQueueInfo st roster active cl).outcome = .published ↔
          (some n ≠ st.previousCount ∨
            some (Br.isActiveQueue active).1 ≠ st.previousActive)) ∧
        (clientCalls (Br.updateQueueInfo st roster active cl).effects ≠ [] ↔
          (some n ≠ st.previousCount ∨
            some (Br.isActiveQueue active).1 ≠ st.previousActive)) ∧
        ((some n ≠ st.previousCount ∨
            some (Br.isActiveQueue active).1 ≠ st.previousActive) →
          (Br.updateQueueInfo st roster active cl).state =
            ⟨some n, some (Br.isActiveQueue active).1⟩ ∧
          ∃ b, Br.progressBar n = .ok b ∧
            clientCalls (Br.updateQueueInfo st roster active cl).effects =
              [.setStatus
                  (if Br.shouldBeOnline n (Br.isActiveQueue active).1 then "online"
                    else "invisible"),
                .setPresence b 4] ++
              clientCalls (updateNickname cl (Br.nickname n (Br.isActiveQueue active).1)) ++
              clientCalls (logToChannel cl
                (Br.logMessage n (Br.isActiveQueue active).1 b
                  (Br.shouldBeOnline n (Br.isActiveQueue active).1)))) ∧
        (Br.updateQueueInfo Br.State.init roster active cl).outcome = .published ∧
        clientCalls (Br.updateQueueInfo Br.State.init roster active cl).effects ≠ [])) ∧
    (∀ (st : Tdm.State) (roster : FetchResult PlayersData) (active : FetchResult MatchData)
        (cl : Client) (n : Nat), (getQueuePlayerCount roster).1 = some n →
      (some n = st.previousCount ∧
          some (Tdm.getActiveQueueCount active).1 = st.previousActiveCount →
        (Tdm.updateQueueInfo st roster active cl).outcome = .unchanged ∧
        (Tdm.updateQueueInfo st roster active cl).state = st ∧
        clientCalls (Tdm.updateQueueInfo st roster active cl).effects = []) ∧
      (n ≤ 17 →
        ((Tdm.updateQueueInfo st roster active cl).outcome = .published ↔
          (some n ≠ st.previousCount ∨
            some (Tdm.getActiveQueueCount active).1 ≠ st.previousActiveCount)) ∧
        (clientCalls (Tdm.updateQueueInfo st roster active cl).effects ≠ [] ↔
          (some n ≠ st.previousCount ∨
            some (Tdm.getActiveQueueCount active).1 ≠ st.previousActiveCount)) ∧
        ((some n ≠ st.previousCount ∨
            some (Tdm.getActiveQueueCount active).1 ≠ st.previousActiveCount) →
          (Tdm.updateQueueInfo st roster active cl).state =
            ⟨some n, some (Tdm.getActiveQueueCount active).1⟩ ∧
          ∃ b, Tdm.progressBar n (Tdm.getActiveQueueCount active).1 = .ok b ∧
            clientCalls (Tdm.updateQueueInfo st roster active cl).effects =
              [.setStatus
                  (if Tdm.shouldBeOnline n (Tdm.getActiveQueueCount active).1 then "online"
                    else "invisible"),
                .setPresence b 4] ++
              clientCalls
                (updateNickname cl (Tdm.nickname n (Tdm.getActiveQueueCount active).1)) ++
              clientCalls (logToChannel cl
                (Tdm.logMessage n (Tdm.getActiveQueueCount active).1 b
                  (Tdm.shouldBeOnline n (Tdm.getActiveQueueCount active).1)))) ∧
        (Tdm.updateQueueInfo Tdm.State.init roster active cl).outcome = .published ∧
        clientCalls (Tdm.updateQueueInfo Tdm.State.init roster active cl).effects ≠ [])) := by
  refine ⟨?_, ?_, ?_⟩
  · intro st roster active cl n h
    refine ⟨?_, fun hn => ?_⟩
    · rintro ⟨h1, h2⟩
      have hc : Eu.hasChanged st n (Eu.getActiveQueueCount active).1 = false := by
        simp [Eu.hasChanged, h1, h2]
      have hu := cycle_unchanged_eu st roster active cl n h hc
      exact ⟨hu.2.1, hu.1, hu.2.2⟩
    · have he := emits_eu st roster active cl n h hn
      have hi := emits_eu Eu.State.init roster active cl n h hn
      have hinit : some n ≠ Eu.State.init.previousCount ∨
          some (Eu.getActiveQueueCount active).1 ≠ Eu.State.init.previousActiveCount :=
        Or.inl (by simp [Eu.State.init])
      exact ⟨he.2.1, he.2.2, fun hch => (he.1 hch).2, hi.2.1.2 hinit, hi.2.2.2 hinit⟩
  · intro st roster active cl n h
    refine ⟨?_, fun hn => ?_⟩
    · rintro ⟨h1, h2⟩
      have hc : Br.hasChanged st n (Br.isActiveQueue active).1 = false := by
        simp [Br.hasChanged, h1, h2]
      have hu := cycle_unchanged_br st roster active cl n h hc
      exact ⟨hu.2.1, hu.1, hu.2.2⟩
    · have he := emits_br st roster active cl n h hn
      have hi := emits_br Br.State.init roster active cl n h hn
      have hinit : some n ≠ Br.State.init.previousCount ∨
          some (Br.isActiveQueue active).1 ≠ Br.State.init.previousActive :=
        Or.inl (by simp [Br.State.init])
      exact ⟨he.2.1, he.2.2, fun hch => (he.1 hch).2, hi.2.1.2 hinit, hi.2.2.2 hinit⟩
  · intro st roster active cl n h
    refine ⟨?_, fun hn => ?_⟩
    · rintro ⟨h1, h2⟩
      have hc : Tdm.hasChanged st n (Tdm.getActiveQueueCount active).1 = false := by
        simp [Tdm.hasChanged, h1, h2]
      have hu := cycle_unchanged_tdm st roster active cl n h hc
      exact ⟨hu.2.1, hu.1, hu.2.2⟩
    · have he := emits_tdm st roster active cl n h hn
      have hi := emits_tdm Tdm.State.init roster active cl n h hn
      have hinit : some n ≠ Tdm.State.init.previousCount ∨
          some (Tdm.getActiveQueueCount active).1 ≠ Tdm.State.init.previousActiveCount :=
        Or.inl (by simp [Tdm.State.init])
      exact ⟨he.2.1, he.2.2, fun hch => (he.1 hch).2, hi.2.1.2 hinit, hi.2.2.2 hinit⟩

theorem change_gate_within_capacity_witness :
    ((getQueuePlayerCount (.ok ⟨some 4⟩)).1 = some 4 ∧ 4 ≤ 8 ∧
      (Eu.updateQueueInfo Eu.State.init (.ok ⟨some 4⟩) (.ok ⟨0, "{}"⟩) Client.allOk).outcome =
        .published ∧
      (Eu.updateQueueInfo ⟨some 3, some 0⟩ (.ok ⟨some 4⟩) (.ok ⟨0, "{}"⟩)
        Client.allFail).state = ⟨some 4, some 0⟩ ∧
      clientCalls (Eu.updateQueueInfo ⟨some 4, some 0⟩ (.ok ⟨some 4⟩) (.ok ⟨0, "{}"⟩)
        Client.allOk).effects = []) ∧
    ((getQueuePlayerCount (.ok ⟨some 4⟩)).1 = some 4 ∧ 4 ≤ 8 ∧
      (Br.updateQueueInfo Br.State.init (.ok ⟨some 4⟩) (.ok ⟨0, "{}"⟩) Client.allOk).outcome =
        .published ∧
      (Br.updateQueueInfo ⟨some 3, some false⟩ (.ok ⟨some 4⟩) (.ok ⟨0, "{}"⟩)
        Client.allFail).state = ⟨some 4, some false⟩ ∧
      clientCalls (Br.updateQueueInfo ⟨some 4, some false⟩ (.ok ⟨some 4⟩) (.ok ⟨0, "{}"⟩)
        Client.allOk).effects = []) ∧
    ((getQueuePlayerCount (.ok ⟨some 17⟩)).1 = some 17 ∧ 17 ≤ 17 ∧
      (Tdm.updateQueueInfo Tdm.State.init (.ok ⟨some 17⟩) (.ok ⟨0, "{}"⟩)
        Client.allOk).outcome = .published ∧
      (Tdm.updateQueueInfo ⟨some 3, some 0⟩ (.ok ⟨some 17⟩) (.ok ⟨0, "{}"⟩)
        Client.allFail).state = ⟨some 17, some 0⟩ ∧
      clientCalls (Tdm.updateQueueInfo ⟨some 17, some 0⟩ (.ok ⟨some 17⟩) (.ok ⟨0, "{}"⟩)
        Client.allOk).effects = []) :=
  ⟨⟨rfl, by decide,
      ((change_gate_within_capacity.1 Eu.State.init (.ok ⟨some 4⟩) (.ok ⟨0, "{}"⟩)
        Client.allOk 4 rfl).2 (by decide)).2.2.2.1,
      (((change_gate_within_capacity.1 ⟨some 3, some 0⟩ (.ok ⟨some 4⟩) (.ok ⟨0, "{}"⟩)
        Client.allFail 4 rfl).2 (by decide)).2.2.1 (Or.inl (by decide))).1,
      ((change_gate_within_capacity.1 ⟨some 4, some 0⟩ (.ok ⟨some 4⟩) (.ok ⟨0, "{}"⟩)
        Client.allOk 4 rfl).1 ⟨rfl, rfl⟩).2.2⟩,
    ⟨rfl, by decide,
      ((change_gate_within_capacity.2.1 Br.State.init (.ok ⟨some 4⟩) (.ok ⟨0, "{}"⟩)
        Client.allOk 4 rfl).2 (by decide)).2.2.2.1,
      (((change_gate_within_capacity.2.1 ⟨some 3, some false⟩ (.ok ⟨some 4⟩) (.ok ⟨0, "{}"⟩)
        Client.allFail 4 rfl).2 (by decide)).2.2.1 (Or.inl (by decide))).1,
      ((change_gate_within_capacity.2.1 ⟨some 4, some false⟩ (.ok ⟨some 4⟩) (.ok ⟨0, "{}"⟩)
        Client.allOk 4 rfl).1 ⟨rfl, rfl⟩).2.2⟩,
    ⟨rfl, by decide,
      ((change_gate_within_capacity.2.2 Tdm.State.init (.ok ⟨some 17⟩) (.ok ⟨0, "{}"⟩)
        Client.allOk 17 rfl).2 (by decide)).2.2.2.1,
      (((change_gate_within_capacity.2.2 ⟨some 3, some 0⟩ (.ok ⟨some 17⟩) (.ok ⟨0, "{}"⟩)
        Client.allFail 17 rfl).2 (by decide)).2.2.1 (Or.inl (by decide))).1,
      ((change_gate_within_capacity.2.2 ⟨some 17, some 0⟩ (.ok ⟨some 17⟩) (.ok ⟨0, "{}"⟩)
        Client.allOk 17 rfl).1 ⟨rfl, rfl⟩).2.2⟩⟩

/-- C2: in each variant, when the roster query fails (the `try` block threw or
the status was not a success, so `getQueuePlayerCount` gives `null`) the cycle
returns at the first check: both stored variables are unchanged and no call is
made on the chat client, hence no status, presence, nickname or log message
write.  Moreover no cycle at all stores `null`: after any cycle the stored
state is the old one or holds two non-null values. -/
theorem roster_failure_is_noop :
    (∀ (st : Eu.State) (roster : FetchResult PlayersData) (active : FetchResult MatchData)
        (cl : Client),
      ((∀ data, roster ≠ .ok data) →
        (getQueuePlayerCount roster).1 = none ∧
        (Eu.updateQueueInfo st roster active cl).outcome = .skipped ∧
        (Eu.updateQueueInfo st roster active cl).state = st ∧
        clientCalls (Eu.updateQueueInfo st roster active cl).effects = []) ∧
      ((Eu.updateQueueInfo st roster active cl).state = st ∨
        ∃ n t, (Eu.updateQueueInfo st roster active cl).state = ⟨some n, some t⟩)) ∧
    (∀ (st : Br.State) (roster : FetchResult PlayersData) (active : FetchResult MatchData)
        (cl : Client),
      ((∀ data, roster ≠ .ok data) →
        (getQueuePlayerCount roster).1 = none ∧
        (Br.updateQueueInfo st roster active cl).outcome = .skipped ∧
        (Br.updateQueueInfo st roster active cl).state = st ∧
        clientCalls (Br.updateQueueInfo st roster active cl).effects = []) ∧
      ((Br.updateQueueInfo st roster active cl).state = st ∨
        ∃ n a, (Br.updateQueueInfo st roster active cl).state = ⟨some n, some a⟩)) ∧
    (∀ (st : Tdm.State) (roster : FetchResult PlayersData) (active : FetchResult MatchData)
        (cl : Client),
      ((∀ data, roster ≠ .ok data) →
        (getQueuePlayerCount roster).1 = none ∧
        (Tdm.updateQueueInfo st roster active cl).outcome = .skipped ∧
        (Tdm.updateQueueInfo st roster active cl).state = st ∧
        clientCalls (Tdm.updateQueueInfo st roster active cl).effects = []) ∧
      ((Tdm.updateQueueInfo st roster active cl).state = st ∨
        ∃ n t, (Tdm.updateQueueInfo st roster active cl).state = ⟨some n, some t⟩)) := by
  refine ⟨?_, ?_, ?_⟩
  · intro st roster active cl
    refine ⟨fun hf => ?_, ?_⟩
    · have h := (getQueuePlayerCount_none_iff roster).2 hf
      have hs := cycle_skipped_eu st roster active cl h
      exact ⟨h, hs.2.1, hs.1, hs.2.2⟩
    · cases h : (getQueuePlayerCount roster).1 with
      | none => exact Or.inl (cycle_skipped_eu st roster active cl h).1
      | some n =>
        cases hc : Eu.hasChanged st n (Eu.getActiveQueueCount active).1
        · exact Or.inl (cycle_unchanged_eu st roster active cl n h hc).1
        · exact Or.inr ⟨n, _, (cycle_changed_eu st roster active cl n h hc).1⟩
  · intro st roster active cl
    refine ⟨fun hf => ?_, ?_⟩
    · have h := (getQueuePlayerCount_none_iff roster).2 hf
      have hs := cycle_skipped_br st roster active cl h
      exact ⟨h, hs.2.1, hs.1, hs.2.2⟩
    · cases h : (getQueuePlayerCount roster).1 with
      | none => exact Or.inl (cycle_skipped_br st roster active cl h).1
      | some n =>
        cases hc : Br.hasChanged st n (Br.isActiveQueue active).1
        · exact Or.inl (cycle_unchanged_br st roster active cl n h hc).1
        · exact Or.inr ⟨n, _, (cycle_changed_br st roster active cl n h hc).1⟩
  · intro st roster active cl
    refine ⟨fun hf => ?_, ?_⟩
    · have h := (getQueuePlayerCount_none_iff roster).2 hf
      have hs := cycle_skipped_tdm st roster active cl h
      exact ⟨h, hs.2.1, hs.1, hs.2.2⟩
    · cases h : (getQueuePlayerCount roster).1 with
      | none => exact Or.inl (cycle_skipped_tdm st roster active cl h).1
      | some n =>
        cases hc : Tdm.hasChanged st n (Tdm.getActiveQueueCount active).1
        · exact Or.inl (cycle_unchanged_tdm st roster active cl n h hc).1
        · exact Or.inr ⟨n, _, (cycle_changed_tdm st roster active cl n h hc).1⟩

theorem roster_failure_is_noop_witness :
    ((∀ data, (FetchResult.notOk 503 : FetchResult PlayersData) ≠ .ok data) ∧
      (Eu.updateQueueInfo ⟨some 3, some 1⟩ (.notOk 503) (.ok ⟨0, "{}"⟩) Client.allOk).state =
        ⟨some 3, some 1⟩ ∧
      clientCalls (Eu.updateQueueInfo ⟨some 3, some 1⟩ (.notOk 503) (.ok ⟨0, "{}"⟩)
        Client.allOk).effects = []) ∧
    ((∀ data, (FetchResult.threw "timeout" : FetchResult PlayersData) ≠ .ok data) ∧
      (Br.updateQueueInfo ⟨some 3, some true⟩ (.threw "timeout") (.ok ⟨0, "{}"⟩)
        Client.allOk).state = ⟨some 3, some true⟩ ∧
      clientCalls (Br.updateQueueInfo ⟨some 3, some true⟩ (.threw "timeout") (.ok ⟨0, "{}"⟩)
        Client.allOk).effects = []) ∧
    ((∀ data, (FetchResult.notOk 401 : FetchResult PlayersData) ≠ .ok data) ∧
      (Tdm.updateQueueInfo ⟨some 3, some 1⟩ (.notOk 401) (.ok ⟨0, "{}"⟩) Client.allOk).state =
        ⟨some 3, some 1⟩ ∧
      clientCalls (Tdm.updateQueueInfo ⟨some 3, some 1⟩ (.notOk 401) (.ok ⟨0, "{}"⟩)
        Client.allOk).effects = []) :=
  ⟨⟨fun _ h => FetchResult.noConfusion h,
      ((roster_failure_is_noop.1 ⟨some 3, some 1⟩ (.notOk 503) (.ok ⟨0, "{}"⟩) Client.allOk).1
        (fun _ h => FetchResult.noConfusion h)).2.2⟩,
    ⟨fun _ h => FetchResult.noConfusion h,
      ((roster_failure_is_noop.2.1 ⟨some 3, some true⟩ (.threw "timeout") (.ok ⟨0, "{}"⟩)
        Client.allOk).1 (fun _ h => FetchResult.noConfusion h)).2.2⟩,
    ⟨fun _ h => FetchResult.noConfusion h,
      ((roster_failure_is_noop.2.2 ⟨some 3, some 1⟩ (.notOk 401) (.ok ⟨0, "{}"⟩)
        Client.allOk).1 (fun _ h => FetchResult.noConfusion h)).2.2⟩⟩

/-- C3: in each variant, in a cycle where a change is detected the stored state
becomes the current observation, both fields together, whatever the chat
client does (the state is the same for any two client behaviours, also when
rendering throws); hence a directly following cycle that observes the same
count and active value returns at the change check, keeps the state and makes
no call on the chat client. -/
theorem commit_independent_of_sinks :
    (∀ (st : Eu.State) (roster roster2 : FetchResult PlayersData)
        (active active2 : FetchResult MatchData) (cl cl1 cl2 : Client) (n : Nat),
      (getQueuePlayerCount roster).1 = some n →
      (some n ≠ st.previousCount ∨
        some (Eu.getActiveQueueCount active).1 ≠ st.previousActiveCount) →
      (Eu.updateQueueInfo st roster active cl).state =
        ⟨some n, some (Eu.getActiveQueueCount active).1⟩ ∧
      (Eu.updateQueueInfo st roster active cl1).state =
        (Eu.updateQueueInfo st roster active cl).state ∧
      ((getQueuePlayerCount roster2).1 = some n →
        (Eu.getActiveQueueCount active2).1 = (Eu.getActiveQueueCount active).1 →
        (Eu.updateQueueInfo (Eu.updateQueueInfo st roster active cl).state roster2 active2
          cl2).outcome = .unchanged ∧
        (Eu.updateQueueInfo (Eu.updateQueueInfo st roster active cl).state roster2 active2
          cl2).state = (Eu.updateQueueInfo st roster active cl).state ∧
        clientCalls (Eu.updateQueueInfo (Eu.updateQueueInfo st roster active cl).state roster2
          active2 cl2).effects = [])) ∧
    (∀ (st : Br.State) (roster roster2 : FetchResult PlayersData)
        (active active2 : FetchResult MatchData) (cl cl1 cl2 : Client) (n : Nat),
      (getQueuePlayerCount roster).1 = some n →
      (some n ≠ st.previousCount ∨ some (Br.isActiveQueue active).1 ≠ st.previousActive) →
      (Br.updateQueueInfo st roster active cl).state =
        ⟨some n, some (Br.isActiveQueue active).1⟩ ∧
      (Br.updateQueueInfo st roster active cl1).state =
        (Br.updateQueueInfo st roster active cl).state ∧
      ((getQueuePlayerCount roster2).1 = some n →
        (Br.isActiveQueue active2).1 = (Br.isActiveQueue active).1 →
        (Br.updateQueueInfo (Br.updateQueueInfo st roster active cl).state roster2 active2
          cl2).outcome = .unchanged ∧
        (Br.updateQueueInfo (Br.updateQueueInfo st roster active cl).state roster2 active2
          cl2).state = (Br.updateQueueInfo st roster active cl).state ∧
        clientCalls (Br.updateQueueInfo (Br.updateQueueInfo st roster active cl).state roster2
          active2 cl2).effects = [])) ∧
    (∀ (st : Tdm.State) (roster roster2 : FetchResult PlayersData)
        (active active2 : FetchResult MatchData) (cl cl1 cl2 : Client) (n : Nat),
      (getQueuePlayerCount roster).1 = some n →
      (some n ≠ st.previousCount ∨
        some (Tdm.getActiveQueueCount active).1 ≠ st.previousActiveCount) →
      (Tdm.updateQueueInfo st roster active cl).state =
        ⟨some n, some (Tdm.getActiveQueueCount active).1⟩ ∧
      (Tdm.updateQueueInfo st roster active cl1).state =
        (Tdm.updateQueueInfo st roster active cl).state ∧
      ((getQueuePlayerCount roster2).1 = some n →
        (Tdm.getActiveQueueCount active2).1 = (Tdm.getActiveQueueCount active).1 →
        (Tdm.updateQueueInfo (Tdm.updateQueueInfo st roster active cl).state roster2 active2
          cl2).outcome = .unchanged ∧
        (Tdm.updateQueueInfo (Tdm.updateQueueInfo st roster active cl).state roster2 active2
          cl2).state = (Tdm.updateQueueInfo st roster active cl).state ∧
        clientCalls (Tdm.updateQueueInfo (Tdm.updateQueueInfo st roster active cl).state roster2
          active2 cl2).effects = [])) := by
  refine ⟨?_, ?_, ?_⟩
  · intro st roster roster2 active active2 cl cl1 cl2 n h hch
    have hc := (hasChanged_iff_eu st n _).2 hch
    have h0 := (cycle_changed_eu st roster active cl n h hc).1
    have h1 := (cycle_changed_eu st roster active cl1 n h hc).1
    refine ⟨h0, h1.trans h0.symm, fun h2 ha => ?_⟩
    rw [h0]
    have hc2 : Eu.hasChanged ⟨some n, some (Eu.getActiveQueueCount active).1⟩ n
        (Eu.getActiveQueueCount active2).1 = false := by
      simp [Eu.hasChanged, ha]
    have hu := cycle_unchanged_eu _ roster2 active2 cl2 n h2 hc2
    exact ⟨hu.2.1, hu.1, hu.2.2⟩
  · intro st roster roster2 active active2 cl cl1 cl2 n h hch
    have hc := (hasChanged_iff_br st n _).2 hch
    have h0 := (cycle_changed_br st roster active cl n h hc).1
    have h1 := (cycle_changed_br st roster active cl1 n h hc).1
    refine ⟨h0, h1.trans h0.symm, fun h2 ha => ?_⟩
    rw [h0]
    have hc2 : Br.hasChanged ⟨some n, some (Br.isActiveQueue active).1⟩ n
        (Br.isActiveQueue active2).1 = false := by
      simp [Br.hasChanged, ha]
    have hu := cycle_unchanged_br _ roster2 active2 cl2 n h2 hc2
    exact ⟨hu.2.1, hu.1, hu.2.2⟩
  · intro st roster roster2 active active2 cl cl1 cl2 n h hch
    have hc := (hasChanged_iff_tdm st n _).2 hch
    have h0 := (cycle_changed_tdm st roster active cl n h hc).1
    have h1 := (cycle_changed_tdm st roster active cl1 n h hc).1
    refine ⟨h0, h1.trans h0.symm, fun h2 ha => ?_⟩
    rw [h0]
    have hc2 : Tdm.hasChanged ⟨some n, some (Tdm.getActiveQueueCount active).1⟩ n
        (Tdm.getActiveQueueCount active2).1 = false := by
      simp [Tdm.hasChanged, ha]
    have hu := cycle_unchanged_tdm _ roster2 active2 cl2 n h2 hc2
    exact ⟨hu.2.1, hu.1, hu.2.2⟩

theorem commit_independent_of_sinks_witness :
    ((Eu.updateQueueInfo Eu.State.init (.ok ⟨some 5⟩) (.ok ⟨0, "{}"⟩) Client.allFail).state =
        (Eu.updateQueueInfo Eu.State.init (.ok ⟨some 5⟩) (.ok ⟨0, "{}"⟩) Client.allOk).state ∧
      (Eu.updateQueueInfo
        (Eu.updateQueueInfo Eu.State.init (.ok ⟨some 5⟩) (.ok ⟨0, "{}"⟩) Client.allOk).state
        (.ok ⟨some 5⟩) (.notOk 500) Client.allOk).outcome = .unchanged) ∧
    ((Br.updateQueueInfo Br.State.init (.ok ⟨some 5⟩) (.ok ⟨0, "{}"⟩) Client.allFail).state =
        (Br.updateQueueInfo Br.State.init (.ok ⟨some 5⟩) (.ok ⟨0, "{}"⟩) Client.allOk).state ∧
      (Br.updateQueueInfo
        (Br.updateQueueInfo Br.State.init (.ok ⟨some 5⟩) (.ok ⟨0, "{}"⟩) Client.allOk).state
        (.ok ⟨some 5⟩) (.notOk 500) Client.allOk).outcome = .unchanged) ∧
    ((Tdm.updateQueueInfo Tdm.State.init (.ok ⟨some 5⟩) (.ok ⟨0, "{}"⟩) Client.allFail).state =
        (Tdm.updateQueueInfo Tdm.State.init (.ok ⟨some 5⟩) (.ok ⟨0, "{}"⟩) Client.allOk).state ∧
      (Tdm.updateQueueInfo
        (Tdm.updateQueueInfo Tdm.State.init (.ok ⟨some 5⟩) (.ok ⟨0, "{}"⟩) Client.allOk).state
        (.ok ⟨some 5⟩) (.notOk 500) Client.allOk).outcome = .unchanged) :=
  ⟨⟨(commit_independent_of_sinks.1 Eu.State.init (.ok ⟨some 5⟩) (.ok ⟨some 5⟩) (.ok ⟨0, "{}"⟩)
        (.notOk 500) Client.allOk Client.allFail Client.allOk 5 rfl (Or.inl (by decide))).2.1,
      ((commit_independent_of_sinks.1 Eu.State.init (.ok ⟨some 5⟩) (.ok ⟨some 5⟩)
        (.ok ⟨0, "{}"⟩) (.notOk 500) Client.allOk Client.allFail Client.allOk 5 rfl
        (Or.inl (by decide))).2.2 rfl rfl).1⟩,
    ⟨(commit_independent_of_sinks.2.1 Br.State.init (.ok ⟨some 5⟩) (.ok ⟨some 5⟩)
        (.ok ⟨0, "{}"⟩) (.notOk 500) Client.allOk Client.allFail Client.allOk 5 rfl
        (Or.inl (by decide))).2.1,
      ((commit_independent_of_sinks.2.1 Br.State.init (.ok ⟨some 5⟩) (.ok ⟨some 5⟩)
        (.ok ⟨0, "{}"⟩) (.notOk 500) Client.allOk Client.allFail Client.allOk 5 rfl
        (Or.inl (by decide))).2.2 rfl rfl).1⟩,
    ⟨(commit_independent_of_sinks.2.2 Tdm.State.init (.ok ⟨some 5⟩) (.ok ⟨some 5⟩)
        (.ok ⟨0, "{}"⟩) (.notOk 500) Client.allOk Client.allFail Client.allOk 5 rfl
        (Or.inl (by decide))).2.1,
      ((commit_independent_of_sinks.2.2 Tdm.State.init (.ok ⟨some 5⟩) (.ok ⟨some 5⟩)
        (.ok ⟨0, "{}"⟩) (.notOk 500) Client.allOk Client.allFail Client.allOk 5 rfl
        (Or.inl (by decide))).2.2 rfl rfl).1⟩⟩

theorem decimal_eight : decimal 8 = "8" := by rw [← toString_eq_decimal]; rfl

theorem decimal_sixteen : decimal 16 = "16" := by rw [← toString_eq_decimal]; rfl

/-- C4: the nickname of each variant is the one the specification lists per
tier, with `n` and `t` as decimal numerals: `n/C In Queue` at tier 0; at tier 1
`Active - n/8 Next` in the two 8 player variants (the binary variant has only
the tiers inactive and active) and `1 Active (n/16 Next)` in the 16 player
variant; `t Active (n/C Next)` from tier 2 on.  The two examples of the claim
are evaluated on the source definitions. -/
theorem nickname_by_tier :
    (∀ n t : Nat, Eu.nickname n t = specNickname 8 n t) ∧
    (∀ n : Nat, Br.nickname n false = specNickname 8 n 0 ∧
      Br.nickname n true = specNickname 8 n 1) ∧
    (∀ n t : Nat, Tdm.nickname n t = specNickname 16 n t) ∧
    Tdm.nickname 10 0 = "10/16 In Queue" ∧
    Eu.nickname 4 2 = "2 Active (4/8 Next)" := by
  refine ⟨?_, ?_, ?_, by decide, by decide⟩
  · intro n t
    unfold Eu.nickname specNickname
    simp only [toString_eq_decimal, decimal_eight]
    split_ifs <;> simp [String.append_assoc]
  · intro n
    unfold Br.nickname specNickname
    simp only [toString_eq_decimal, decimal_eight]
    simp [String.append_assoc]
  · intro n t
    unfold Tdm.nickname specNickname
    simp only [toString_eq_decimal, decimal_sixteen, show ¬ ((16 : Nat) = 8) by decide,
      if_false]
    split_ifs with h0 h1
    · simp [String.append_assoc]
    · subst h1
      rw [← toString_eq_decimal 1]
      rfl
    · simp [String.append_assoc]

theorem statusCalls_append (a b : List Effect) :
    statusCalls (a ++ b) = statusCalls a ++ statusCalls b := by
  simp [statusCalls]

theorem presenceCalls_append (a b : List Effect) :
    presenceCalls (a ++ b) = presenceCalls a ++ presenceCalls b := by
  simp [presenceCalls]

theorem statusCalls_of_publish (cl : Client) (s b nick msg : String) (es : List Effect)
    (h : clientCalls es = [.setStatus s, .setPresence b 4] ++
      clientCalls (updateNickname cl nick) ++ clientCalls (logToChannel cl msg)) :
    statusCalls es = [s] := by
  rw [← statusCalls_clientCalls, h, statusCalls_append, statusCalls_append,
    statusCalls_clientCalls, statusCalls_clientCalls, statusCalls_updateNickname,
    statusCalls_logToChannel]
  rfl

theorem presenceCalls_of_publish (cl : Client) (s b nick msg : String) (es : List Effect)
    (h : clientCalls es = [.setStatus s, .setPresence b 4] ++
      clientCalls (updateNickname cl nick) ++ clientCalls (logToChannel cl msg)) :
    presenceCalls es = [b] := by
  rw [← presenceCalls_clientCalls, h, presenceCalls_append, presenceCalls_append,
    presenceCalls_clientCalls, presenceCalls_clientCalls, presenceCalls_updateNickname,
    presenceCalls_logToChannel]
  rfl

theorem published_calls_eu (st : Eu.State) (roster : FetchResult PlayersData)
    (active : FetchResult MatchData) (cl : Client) (n : Nat)
    (h : (getQueuePlayerCount roster).1 = some n)
    (hp : (Eu.updateQueueInfo st roster active cl).outcome = .published) :
    ∃ b, Eu.progressBar n (Eu.getActiveQueueCount active).1 = .ok b ∧
      statusCalls (Eu.updateQueueInfo st roster active cl).effects =
        [if Eu.shouldBeOnline n (Eu.getActiveQueueCount active).1 then "online"
          else "invisible"] ∧
      presenceCalls (Eu.updateQueueInfo st roster active cl).effects = [b] := by
  cases hc : Eu.hasChanged st n (Eu.getActiveQueueCount active).1
  · have hu := cycle_unchanged_eu st roster active cl n h hc
    rw [hu.2.1] at hp
    cases hp
  · have hch := cycle_changed_eu st roster active cl n h hc
    cases hb : Eu.progressBar n (Eu.getActiveQueueCount active).1 with
    | error err =>
      rw [(hch.2.1 err hb).1] at hp
      cases hp
    | ok b =>
      exact ⟨b, rfl, statusCalls_of_publish _ _ _ _ _ _ (hch.2.2 b hb).2,
        presenceCalls_of_publish _ _ _ _ _ _ (hch.2.2 b hb).2⟩

theorem published_calls_br (st : Br.State) (roster : FetchResult PlayersData)
    (active : FetchResult MatchData) (cl : Client) (n : Nat)
    (h : (getQueuePlayerCount roster).1 = some n)
    (hp : (Br.updateQueueInfo st roster active cl).outcome = .published) :
    ∃ b, Br.progressBar n = .ok b ∧
      statusCalls (Br.updateQueueInfo st roster active cl).effects =
        [if Br.shouldBeOnline n (Br.isActiveQueue active).1 then "online"
          else "invisible"] ∧
      presenceCalls (Br.updateQueueInfo st roster active cl).effects = [b] := by
  cases hc : Br.hasChanged st n (Br.isActiveQueue active).1
  · have hu := cycle_unchanged_br st roster active cl n h hc
    rw [hu.2.1] at hp
    cases hp
  · have hch := cycle_changed_br st roster active cl n h hc
    cases hb : Br.progressBar n with
    | error err =>
      rw [(hch.2.1 err hb).1] at hp
      cases hp
    | ok b =>
      exact ⟨b, rfl, statusCalls_of_publish _ _ _ _ _ _ (hch.2.2 b hb).2,
        presenceCalls_of_publish _ _ _ _ _ _ (hch.2.2 b hb).2⟩

theorem published_calls_tdm (st : Tdm.State) (roster : FetchResult PlayersData)
    (active : FetchResult MatchData) (cl : Client) (n : Nat)
    (h : (getQueuePlayerCount roster).1 = some n)
    (hp : (Tdm.updateQueueInfo st roster active cl).outcome = .published) :
    ∃ b, Tdm.progressBar n (Tdm.getActiveQueueCount active).1 = .ok b ∧
      statusCalls (Tdm.updateQueueInfo st roster active cl).effects =
        [if Tdm.shouldBeOnline n (Tdm.getActiveQueueCount active).1 then "online"
          else "invisible"] ∧
      presenceCalls (Tdm.updateQueueInfo st roster active cl).effects = [b] := by
  cases hc : Tdm.hasChanged st n (Tdm.getActiveQueueCount active).1
  · have hu := cycle_unchanged_tdm st roster active cl n h hc
    rw [hu.2.1] at hp
    cases hp
  · have hch := cycle_changed_tdm st roster active cl n h hc
    cases hb : Tdm.progressBar n (Tdm.getActiveQueueCount active).1 with
    | error err =>
      rw [(hch.2.1 err hb).1] at hp
      cases hp
    | ok b =>
      exact ⟨b, rfl, statusCalls_of_publish _ _ _ _ _ _ (hch.2.2 b hb).2,
        presenceCalls_of_publish _ _ _ _ _ _ (hch.2.2 b hb).2⟩

theorem filledSlots_eight (n : Nat) : filledSlots 8 n = n := by
  simp [filledSlots]

theorem filledSlots_sixteen (n : Nat) : filledSlots 16 n = n / 2 := by
  simp [filledSlots]

/-- C5 (code at the failing inputs): at tier 2 both four tier variants fill
the bar with the orange square U+1F7E7, the literal of `redSquares`, and not
with the red square that the specification and the source comment name; from
tier 3 on they show the red square U+1F7E5, the literal of `purpleSquares`,
on orange squares, where purple on red is specified, and no branch ever emits
the purple square.  The glyph pairs agree with the specification exactly at
the tiers 0 and 1; for every count within the capacity the bar is `filledSlots`
copies of the filled glyph of the source followed by `8 - filledSlots` copies
of its empty glyph. -/
theorem progress_bar_tier_glyph_divergence :
    (Eu.progressBar 4 2 =
        .ok (String.mk [orange, orange, orange, orange, yellow, yellow, yellow, yellow]) ∧
      Eu.progressBar 4 2 ≠
        .ok (bar (tierGlyphs 2).1 (tierGlyphs 2).2 (filledSlots 8 4) (8 - filledSlots 8 4))) ∧
    (Eu.progressBar 4 3 =
        .ok (String.mk [red, red, red, red, orange, orange, orange, orange]) ∧
      Eu.progressBar 4 3 ≠
        .ok (bar (tierGlyphs 3).1 (tierGlyphs 3).2 (filledSlots 8 4) (8 - filledSlots 8 4))) ∧
    (Tdm.progressBar 10 2 =
        .ok (String.mk [orange, orange, orange, orange, orange, yellow, yellow, yellow]) ∧
      Tdm.progressBar 10 2 ≠
        .ok (bar (tierGlyphs 2).1 (tierGlyphs 2).2 (filledSlots 16 10)
          (8 - filledSlots 16 10))) ∧
    (Tdm.progressBar 10 3 =
        .ok (String.mk [red, red, red, red, red, orange, orange, orange]) ∧
      Tdm.progressBar 10 3 ≠
        .ok (bar (tierGlyphs 3).1 (tierGlyphs 3).2 (filledSlots 16 10)
          (8 - filledSlots 16 10))) ∧
    (tierGlyphs 2 = (red, yellow) ∧ sourceGlyphs 2 = (orange, yellow) ∧
      tierGlyphs 3 = (purple, red) ∧ sourceGlyphs 3 = (red, orange)) ∧
    [green, gray, yellow, orange, red, purple].Nodup ∧
    (∀ t : Nat, (sourceGlyphs t = tierGlyphs t ↔ t ≤ 1) ∧
      (sourceGlyphs t).1 ≠ purple ∧ (sourceGlyphs t).2 ≠ purple) ∧
    (∀ n t : Nat, n ≤ 8 →
      Eu.progressBar n t =
        .ok (bar (sourceGlyphs t).1 (sourceGlyphs t).2 (filledSlots 8 n)
          (8 - filledSlots 8 n))) ∧
    (∀ n t : Nat, n ≤ 16 →
      Tdm.progressBar n t =
        .ok (bar (sourceGlyphs t).1 (sourceGlyphs t).2 (filledSlots 16 n)
          (8 - filledSlots 16 n))) := by
  refine ⟨⟨by decide, by decide⟩, ⟨by decide, by decide⟩, ⟨by decide, by decide⟩,
    ⟨by decide, by decide⟩, ⟨rfl, rfl, rfl, rfl⟩, by decide, ?_,
    fun n t h => by rw [filledSlots_eight]; exact progressBar_ok_eu n t h,
    fun n t h => by rw [filledSlots_sixteen]; exact progressBar_ok_tdm n t (by omega)⟩
  intro t
  unfold sourceGlyphs tierGlyphs
  by_cases h0 : t = 0
  · subst h0
    exact ⟨by decide, by decide, by decide⟩
  by_cases h1 : t = 1
  · subst h1
    exact ⟨by decide, by decide, by decide⟩
  by_cases h2 : t = 2
  · subst h2
    exact ⟨by decide, by decide, by decide⟩
  rw [if_neg h0, if_neg h1, if_neg h2, if_neg h0, if_neg h1, if_neg h2]
  refine ⟨⟨fun h => absurd (congrArg Prod.fst h) (by decide), fun h => by omega⟩,
    by decide, by decide⟩

theorem progress_bar_tier_glyph_divergence_witness :
    (4 ≤ 8 ∧ Eu.progressBar 4 2 = .ok (bar orange yellow 4 4)) ∧
    (10 ≤ 16 ∧ Tdm.progressBar 10 3 = .ok (bar red orange 5 3)) ∧
    (7 ≤ 8 ∧ Eu.progressBar 7 1 = .ok (bar (tierGlyphs 1).1 (tierGlyphs 1).2 7 1)) :=
  ⟨⟨by decide, progress_bar_tier_glyph_divergence.2.2.2.2.2.2.2.1 4 2 (by decide)⟩,
    ⟨by decide, progress_bar_tier_glyph_divergence.2.2.2.2.2.2.2.2 10 3 (by decide)⟩,
    ⟨by decide, progress_bar_tier_glyph_divergence.2.2.2.2.2.2.2.1 7 1 (by decide)⟩⟩

/-- C6: for the capacities 8 and 16 and a count `n` within the capacity, the
repeat counts of the code are `filledSlots = floor(n / (C/8))` and
`emptySlots = 8 - filledSlots`, both lie in [0, 8], and the progress bar of
every variant is that many filled and empty glyphs, 8 glyphs in all. -/
theorem slot_counts_and_bar_length :
    (∀ C n : Nat, (C = 8 ∨ C = 16) → n ≤ C →
      filledSlots C n = n / (C / 8) ∧ emptySlots C n = 8 - (filledSlots C n : Int) ∧
      filledSlots C n ≤ 8 ∧ 0 ≤ emptySlots C n ∧ emptySlots C n ≤ 8) ∧
    (∀ n t : Nat, n ≤ 8 → ∃ b, Eu.progressBar n t = .ok b ∧ b.length = 8 ∧
      b = bar (sourceGlyphs t).1 (sourceGlyphs t).2 (filledSlots 8 n) (emptySlots 8 n).toNat) ∧
    (∀ n : Nat, n ≤ 8 → ∃ b, Br.progressBar n = .ok b ∧ b.length = 8 ∧
      b = bar green gray (filledSlots 8 n) (emptySlots 8 n).toNat) ∧
    (∀ n t : Nat, n ≤ 16 →
      Tdm.filledBlocks n = filledSlots 16 n ∧ Tdm.emptyBlocks n = emptySlots 16 n ∧
      ∃ b, Tdm.progressBar n t = .ok b ∧ b.length = 8 ∧
        b = bar (sourceGlyphs t).1 (sourceGlyphs t).2 (filledSlots 16 n)
          (emptySlots 16 n).toNat) := by
  refine ⟨?_, ?_, ?_, ?_⟩
  · intro C n hC hn
    rcases hC with rfl | rfl
    · rw [emptySlots, filledSlots_eight]
      refine ⟨by simp, rfl, hn, by omega, by omega⟩
    · rw [emptySlots, filledSlots_sixteen]
      refine ⟨rfl, rfl, by omega, by omega, by omega⟩
  · intro n t h
    have he : (emptySlots 8 n).toNat = 8 - n := by
      rw [emptySlots, filledSlots_eight]; omega
    refine ⟨_, progressBar_ok_eu n t h, ?_, ?_⟩
    · rw [bar_length]; omega
    · rw [he, filledSlots_eight]
  · intro n h
    have he : (emptySlots 8 n).toNat = 8 - n := by
      rw [emptySlots, filledSlots_eight]; omega
    refine ⟨_, progressBar_ok_br n h, ?_, ?_⟩
    · rw [bar_length]; omega
    · rw [he, filledSlots_eight]
  · intro n t h
    have he : (emptySlots 16 n).toNat = 8 - n / 2 := by
      rw [emptySlots, filledSlots_sixteen]; omega
    refine ⟨?_, ?_, _, progressBar_ok_tdm n t (by omega), ?_, ?_⟩
    · rw [filledSlots_sixteen]; rfl
    · rw [emptySlots, filledSlots_sixteen]; rfl
    · rw [bar_length]; omega
    · rw [he, filledSlots_sixteen]

theorem slot_counts_and_bar_length_witness :
    ((16 = 8 ∨ 16 = 16) ∧ 10 ≤ 16 ∧ filledSlots 16 10 = 10 / (16 / 8) ∧
      emptySlots 16 10 ≤ 8) ∧
    (3 ≤ 8 ∧ ∃ b, Eu.progressBar 3 1 = .ok b ∧ b.length = 8 ∧
      b = bar (sourceGlyphs 1).1 (sourceGlyphs 1).2 (filledSlots 8 3) (emptySlots 8 3).toNat) ∧
    (8 ≤ 8 ∧ ∃ b, Br.progressBar 8 = .ok b ∧ b.length = 8 ∧
      b = bar green gray (filledSlots 8 8) (emptySlots 8 8).toNat) ∧
    (15 ≤ 16 ∧ Tdm.filledBlocks 15 = filledSlots 16 15) :=
  ⟨⟨Or.inr rfl, by decide,
      (slot_counts_and_bar_length.1 16 10 (Or.inr rfl) (by decide)).1,
      (slot_counts_and_bar_length.1 16 10 (Or.inr rfl) (by decide)).2.2.2.2⟩,
    ⟨by decide, slot_counts_and_bar_length.2.1 3 1 (by decide)⟩,
    ⟨by decide, slot_counts_and_bar_length.2.2.1 8 (by decide)⟩,
    ⟨by decide, (slot_counts_and_bar_length.2.2.2 15 0 (by decide)).1⟩⟩

/-- C7: in each variant `shouldBeOnline` is true if and only if the queue is
active (tier above 0, or the boolean in the binary variant) or the count is
above 0; a cycle that publishes makes exactly one `setStatus` call, with
`invisible` when the count is 0 and nothing is active and with `online`
otherwise; count 0 and no active match in the binary variant gives false. -/
theorem should_be_online_iff :
    (∀ n t : Nat, Eu.shouldBeOnline n t = true ↔ (t > 0 ∨ n > 0)) ∧
    (∀ (n : Nat) (a : Bool), Br.shouldBeOnline n a = true ↔ (a = true ∨ n > 0)) ∧
    (∀ n t : Nat, Tdm.shouldBeOnline n t = true ↔ (t > 0 ∨ n > 0)) ∧
    Br.shouldBeOnline 0 false = false ∧
    (∀ (st : Eu.State) (roster : FetchResult PlayersData) (active : FetchResult MatchData)
        (cl : Client) (n : Nat), (getQueuePlayerCount roster).1 = some n →
      (Eu.updateQueueInfo st roster active cl).outcome = .published →
      statusCalls (Eu.updateQueueInfo st roster active cl).effects =
        [if n = 0 ∧ (Eu.getActiveQueueCount active).1 = 0 then "invisible" else "online"]) ∧
    (∀ (st : Br.State) (roster : FetchResult PlayersData) (active : FetchResult MatchData)
        (cl : Client) (n : Nat), (getQueuePlayerCount roster).1 = some n →
      (Br.updateQueueInfo st roster active cl).outcome = .published →
      statusCalls (Br.updateQueueInfo st roster active cl).effects =
        [if n = 0 ∧ (Br.isActiveQueue active).1 = false then "invisible" else "online"]) ∧
    (∀ (st : Tdm.State) (roster : FetchResult PlayersData) (active : FetchResult MatchData)
        (cl : Client) (n : Nat), (getQueuePlayerCount roster).1 = some n →
      (Tdm.updateQueueInfo st roster active cl).outcome = .published →
      statusCalls (Tdm.updateQueueInfo st roster active cl).effects =
        [if n = 0 ∧ (Tdm.getActiveQueueCount active).1 = 0 then "invisible" else "online"]) := by
  refine ⟨?_, ?_, ?_, rfl, ?_, ?_, ?_⟩
  · intro n t
    simp [Eu.shouldBeOnline]
  · intro n a
    simp [Br.shouldBeOnline]
  · intro n t
    simp [Tdm.shouldBeOnline]
  · intro st roster active cl n h hp
    obtain ⟨b, -, hs, -⟩ := published_calls_eu st roster active cl n h hp
    rw [hs]
    by_cases h1 : n = 0 <;> by_cases h2 : (Eu.getActiveQueueCount active).1 = 0 <;>
      simp [Eu.shouldBeOnline, h1, h2, Nat.pos_iff_ne_zero]
  · intro st roster active cl n h hp
    obtain ⟨b, -, hs, -⟩ := published_calls_br st roster active cl n h hp
    rw [hs]
    by_cases h1 : n = 0 <;> cases h2 : (Br.isActiveQueue active).1 <;>
      simp [Br.shouldBeOnline, h1, Nat.pos_iff_ne_zero]
  · intro st roster active cl n h hp
    obtain ⟨b, -, hs, -⟩ := published_calls_tdm st roster active cl n h hp
    rw [hs]
    by_cases h1 : n = 0 <;> by_cases h2 : (Tdm.getActiveQueueCount active).1 = 0 <;>
      simp [Tdm.shouldBeOnline, h1, h2, Nat.pos_iff_ne_zero]

theorem should_be_online_iff_witness :
    statusCalls (Eu.updateQueueInfo ⟨some 2, some 0⟩ (.ok ⟨some 0⟩) (.ok ⟨0, "{}"⟩)
        Client.allOk).effects = ["invisible"] ∧
    statusCalls (Br.updateQueueInfo Br.State.init (.ok ⟨some 0⟩) (.ok ⟨0, "{}"⟩)
        Client.allFail).effects = ["invisible"] ∧
    statusCalls (Tdm.updateQueueInfo Tdm.State.init (.ok ⟨some 1⟩) (.notOk 500)
        Client.allOk).effects = ["online"] :=
  ⟨should_be_online_iff.2.2.2.2.1 ⟨some 2, some 0⟩ (.ok ⟨some 0⟩) (.ok ⟨0, "{}"⟩) Client.allOk 0
      rfl (by decide),
    should_be_online_iff.2.2.2.2.2.1 Br.State.init (.ok ⟨some 0⟩) (.ok ⟨0, "{}"⟩) Client.allFail
      0 rfl (by decide),
    should_be_online_iff.2.2.2.2.2.2 Tdm.State.init (.ok ⟨some 1⟩) (.notOk 500) Client.allOk 1
      rfl (by decide)⟩

theorem isPrefixOf_iff_occursAt_zero (pat s : List Char) :
    pat.isPrefixOf s = true ↔ OccursAt pat s 0 := by
  rw [List.isPrefixOf_iff_prefix]
  unfold OccursAt
  constructor
  · intro h
    refine ⟨by simpa using h.length_le, ?_⟩
    simpa using (List.prefix_iff_eq_take.1 h).symm
  · rintro ⟨-, h⟩
    rw [List.prefix_iff_eq_take]
    simpa using h.symm

theorem occursAt_cons_succ (pat s : List Char) (c : Char) (i : Nat) :
    OccursAt pat (c :: s) (i + 1) ↔ OccursAt pat s i := by
  unfold OccursAt
  simp only [List.length_cons, List.drop_succ_cons]
  constructor
  · rintro ⟨h1, h2⟩; exact ⟨by omega, h2⟩
  · rintro ⟨h1, h2⟩; exact ⟨by omega, h2⟩

theorem not_occursAt_nil (pat : List Char) (hpat : pat ≠ []) (i : Nat) :
    ¬ OccursAt pat [] i := by
  rintro ⟨h, -⟩
  have hl : 0 < pat.length := List.length_pos.2 hpat
  have h0 : i + pat.length ≤ 0 := h
  omega

theorem GreedyOccurrences.shift {pat s : List Char} (c : Char) {k : Nat} {ps : List Nat}
    (h : GreedyOccurrences pat s k ps) :
    GreedyOccurrences pat (c :: s) (k + 1) (ps.map (· + 1)) := by
  induction h with
  | done start hno =>
    refine GreedyOccurrences.done _ ?_
    intro i hi
    obtain ⟨j, rfl⟩ : ∃ j, i = j + 1 := ⟨i - 1, by omega⟩
    rw [occursAt_cons_succ]
    exact hno j (by omega)
  | next start p ps hle hocc hno _ ih =>
    simp only [List.map_cons]
    refine GreedyOccurrences.next _ _ _ (by omega) ((occursAt_cons_succ _ _ _ _).2 hocc) ?_ ?_
    · intro i hi hlt
      obtain ⟨j, rfl⟩ : ∃ j, i = j + 1 := ⟨i - 1, by omega⟩
      rw [occursAt_cons_succ]
      exact hno j (by omega) (by omega)
    · have : p + 1 + pat.length = p + pat.length + 1 := by omega
      rw [this]
      exact ih

theorem GreedyOccurrences.extend {pat s : List Char} {k : Nat} {ps : List Nat}
    (h : GreedyOccurrences pat s (k + 1) ps) (hk : ¬ OccursAt pat s k) :
    GreedyOccurrences pat s k ps := by
  cases h with
  | done _ hno =>
    refine GreedyOccurrences.done _ ?_
    intro i hi
    rcases Nat.eq_or_lt_of_le hi with rfl | hlt
    · exact hk
    · exact hno i hlt
  | next _ p ps hle hocc hno hrest =>
    refine GreedyOccurrences.next _ _ _ (by omega) hocc ?_ hrest
    intro i hi hlt
    rcases Nat.eq_or_lt_of_le hi with rfl | hlt2
    · exact hk
    · exact hno i hlt2 hlt

theorem GreedyOccurrences.unique {pat s : List Char} {k : Nat} {ps qs : List Nat}
    (h1 : GreedyOccurrences pat s k ps) (h2 : GreedyOccurrences pat s k qs) : ps = qs := by
  induction h1 generalizing qs with
  | done start hno =>
    cases h2 with
    | done _ _ => rfl
    | next _ p qs hle hocc _ _ => exact absurd hocc (hno p hle)
  | next start p ps hle hocc hno _ ih =>
    cases h2 with
    | done _ hno2 => exact absurd hocc (hno2 p hle)
    | next _ q qs hle2 hocc2 hno2 hrest2 =>
      have hpq : p = q := by
        rcases Nat.lt_trichotomy p q with hlt | heq | hgt
        · exact absurd hocc (hno2 p hle hlt)
        · exact heq
        · exact absurd hocc2 (hno q hle2 hgt)
      subst hpq
      rw [ih hrest2]

theorem globalMatches_greedy (pat : List Char) (hpat : pat ≠ []) :
    ∀ (s : List Char) (skip : Nat),
      ∃ ps, GreedyOccurrences pat s skip ps ∧ globalMatches pat s skip = ps.length := by
  have hlen : 0 < pat.length := List.length_pos.2 hpat
  intro s
  induction s with
  | nil =>
    intro skip
    refine ⟨[], GreedyOccurrences.done _ (fun i _ => not_occursAt_nil pat hpat i), ?_⟩
    cases skip <;> rfl
  | cons c rest ih =>
    intro skip
    cases skip with
    | succ skip =>
      obtain ⟨ps, hg, hc⟩ := ih skip
      exact ⟨ps.map (· + 1), hg.shift c, by simpa [globalMatches] using hc⟩
    | zero =>
      by_cases hp : pat.isPrefixOf (c :: rest) = true
      · obtain ⟨ps, hg, hc⟩ := ih (pat.length - 1)
        refine ⟨0 :: ps.map (· + 1), ?_, ?_⟩
        · refine GreedyOccurrences.next _ _ _ (Nat.le_refl 0)
            ((isPrefixOf_iff_occursAt_zero _ _).1 hp) (fun i _ hi => absurd hi (by omega)) ?_
          have := hg.shift c
          have he : pat.length - 1 + 1 = 0 + pat.length := by omega
          rw [he] at this
          exact this
        · simp [globalMatches, hp, hc]
          omega
      · obtain ⟨ps, hg, hc⟩ := ih 0
        refine ⟨ps.map (· + 1), (hg.shift c).extend ?_, ?_⟩
        · rwa [← isPrefixOf_iff_occursAt_zero]
        · simp [globalMatches, hp, hc]

theorem includesAt_iff (pat : List Char) :
    ∀ s : List Char, includesAt pat s = true ↔ ∃ i, OccursAt pat s i := by
  intro s
  induction s with
  | nil =>
    rw [includesAt, isPrefixOf_iff_occursAt_zero]
    constructor
    · intro h; exact ⟨0, h⟩
    · rintro ⟨i, hi⟩
      obtain ⟨h1, h2⟩ := hi
      have h0 : i + pat.length ≤ 0 := h1
      have : i = 0 := by omega
      subst this
      exact ⟨h1, h2⟩
  | cons c rest ih =>
    rw [includesAt, Bool.or_eq_true, isPrefixOf_iff_occursAt_zero, ih]
    constructor
    · rintro (h | ⟨i, hi⟩)
      · exact ⟨0, h⟩
      · exact ⟨i + 1, (occursAt_cons_succ _ _ _ _).2 hi⟩
    · rintro ⟨i, hi⟩
      cases i with
      | zero => exact Or.inl hi
      | succ i => exact Or.inr ⟨i, (occursAt_cons_succ _ _ _ _).1 hi⟩

theorem greedy_nonempty_iff {pat s : List Char} {ps : List Nat}
    (h : GreedyOccurrences pat s 0 ps) : 0 < ps.length ↔ ∃ i, OccursAt pat s i := by
  cases h with
  | done _ hno =>
    simp only [List.length_nil, Nat.lt_irrefl, false_iff]
    rintro ⟨i, hi⟩
    exact hno i (Nat.zero_le i) hi
  | next _ p ps _ hocc _ _ =>
    simp only [List.length_cons, Nat.zero_lt_succ, true_iff]
    exact ⟨p, hocc⟩

/-- C8: for a non-empty identifier `pat` and every response text, the match
count of the tier counting variants is the number of non-overlapping
occurrences of `pat` taken greedily from left to right (the list of their
positions exists and is unique), the containment test of the binary variant
holds exactly when `pat` occurs somewhere, and the count is above 0 if and
only if the containment test holds.  On a response with keys the three
queries return these values for their own `QUEUE_ID`; on an empty response
object they return 0, respectively false, which is also the result of
counting or testing on the text of an empty object. -/
theorem active_tier_counts_occurrences :
    (∀ text pat : String, pat.data ≠ [] →
      (∃ ps, GreedyOccurrences pat.data text.data 0 ps ∧
        (∀ qs, GreedyOccurrences pat.data text.data 0 qs → qs = ps) ∧
        matchCount text pat = ps.length) ∧
      (includes text pat = true ↔ ∃ i, OccursAt pat.data text.data i) ∧
      (0 < matchCount text pat ↔ includes text pat = true)) ∧
    (∀ data : MatchData, data.keys ≠ 0 →
      (Eu.getActiveQueueCount (.ok data)).1 = matchCount data.text Eu.QUEUE_ID ∧
      (Tdm.getActiveQueueCount (.ok data)).1 = matchCount data.text Tdm.QUEUE_ID ∧
      (Br.isActiveQueue (.ok data)).1 = includes data.text Br.QUEUE_ID) ∧
    (∀ data : MatchData, data.keys = 0 →
      (Eu.getActiveQueueCount (.ok data)).1 = 0 ∧
      (Tdm.getActiveQueueCount (.ok data)).1 = 0 ∧
      (Br.isActiveQueue (.ok data)).1 = false) ∧
    (matchCount "{}" Eu.QUEUE_ID = 0 ∧ matchCount "{}" Tdm.QUEUE_ID = 0 ∧
      includes "{}" Br.QUEUE_ID = false) ∧
    (Eu.QUEUE_ID.data ≠ [] ∧ Tdm.QUEUE_ID.data ≠ [] ∧ Br.QUEUE_ID.data ≠ []) := by
  refine ⟨?_, ?_, ?_, ⟨by decide, by decide, by decide⟩, ⟨by decide, by decide, by decide⟩⟩
  · intro text pat hpat
    obtain ⟨ps, hg, hc⟩ := globalMatches_greedy pat.data hpat text.data 0
    have hinc : includes text pat = true ↔ ∃ i, OccursAt pat.data text.data i :=
      includesAt_iff pat.data text.data
    refine ⟨⟨ps, hg, fun qs hq => hq.unique hg, hc⟩, hinc, ?_⟩
    rw [hinc, ← greedy_nonempty_iff hg]
    unfold matchCount
    rw [hc]
  · intro data h
    simp [Eu.getActiveQueueCount, Tdm.getActiveQueueCount, Br.isActiveQueue, h]
  · intro data h
    simp [Eu.getActiveQueueCount, Tdm.getActiveQueueCount, Br.isActiveQueue, h]

theorem active_tier_counts_occurrences_witness :
    (Eu.QUEUE_ID.data ≠ [] ∧
      (0 < matchCount "[1397417921210482788,13974179212104827881397417921210482788]"
          Eu.QUEUE_ID ↔
        includes "[1397417921210482788,13974179212104827881397417921210482788]"
          Eu.QUEUE_ID = true)) ∧
    ((⟨2, "[1397417921210482788,13974179212104827881397417921210482788]"⟩ : MatchData).keys
        ≠ 0 ∧
      (Eu.getActiveQueueCount
        (.ok ⟨2, "[1397417921210482788,13974179212104827881397417921210482788]"⟩)).1 =
        matchCount "[1397417921210482788,13974179212104827881397417921210482788]"
          Eu.QUEUE_ID) ∧
    ((⟨0, "{}"⟩ : MatchData).keys = 0 ∧ (Br.isActiveQueue (.ok ⟨0, "{}"⟩)).1 = false) :=
  ⟨⟨by decide,
      (active_tier_counts_occurrences.1
        "[1397417921210482788,13974179212104827881397417921210482788]" Eu.QUEUE_ID
        (by decide)).2.2⟩,
    ⟨by decide,
      (active_tier_counts_occurrences.2.1
        ⟨2, "[1397417921210482788,13974179212104827881397417921210482788]"⟩ (by decide)).1⟩,
    ⟨rfl, (active_tier_counts_occurrences.2.2.1 ⟨0, "{}"⟩ rfl).2.2⟩⟩

/-- C9 (counterexample): a roster of 9 players in the 8 player variants, or of
18 players in the 16 player variant, makes `repeat` throw a `RangeError` for
the count -1; the exception leaves `updateQueueInfo`, no call is made on the
chat client, and the stored state already holds the new observation. -/
theorem render_throws_above_capacity :
    (Eu.progressBar 9 0 = .error "RangeError: Invalid count value: -1" ∧
      (Eu.updateQueueInfo Eu.State.init (.ok ⟨some 9⟩) (.ok ⟨0, "{}"⟩) Client.allOk).outcome =
        .threw "RangeError: Invalid count value: -1" ∧
      clientCalls (Eu.updateQueueInfo Eu.State.init (.ok ⟨some 9⟩) (.ok ⟨0, "{}"⟩)
        Client.allOk).effects = [] ∧
      (Eu.updateQueueInfo Eu.State.init (.ok ⟨some 9⟩) (.ok ⟨0, "{}"⟩) Client.allOk).state =
        ⟨some 9, some 0⟩) ∧
    (Br.progressBar 9 = .error "RangeError: Invalid count value: -1" ∧
      (Br.updateQueueInfo Br.State.init (.ok ⟨some 9⟩) (.ok ⟨0, "{}"⟩) Client.allOk).outcome =
        .threw "RangeError: Invalid count value: -1" ∧
      clientCalls (Br.updateQueueInfo Br.State.init (.ok ⟨some 9⟩) (.ok ⟨0, "{}"⟩)
        Client.allOk).effects = []) ∧
    (Tdm.progressBar 18 0 = .error "RangeError: Invalid count value: -1" ∧
      (Tdm.updateQueueInfo Tdm.State.init (.ok ⟨some 18⟩) (.ok ⟨0, "{}"⟩) Client.allOk).outcome =
        .threw "RangeError: Invalid count value: -1" ∧
      clientCalls (Tdm.updateQueueInfo Tdm.State.init (.ok ⟨some 18⟩) (.ok ⟨0, "{}"⟩)
        Client.allOk).effects = []) := by
  refine ⟨⟨by decide, by decide, by decide, by decide⟩, ⟨by decide, by decide, by decide⟩,
    ⟨by decide, by decide, by decide⟩⟩

/-- C9 (amended): no clamping is applied; for every count whose slot numbers
are within [0, 8] as computed (at most 8 players in the 8 player variants, at
most 17 in the 16 player variant) rendering succeeds, the progress bar has
exactly 8 glyphs, and a cycle that detected a change runs through the
publishing blocks with that bar as its one presence write. -/
theorem render_succeeds_within_capacity :
    (∀ (st : Eu.State) (roster : FetchResult PlayersData) (active : FetchResult MatchData)
        (cl : Client) (n : Nat), (getQueuePlayerCount roster).1 = some n → n ≤ 8 →
      ∃ b, Eu.progressBar n (Eu.getActiveQueueCount active).1 = .ok b ∧ b.length = 8 ∧
        ((some n ≠ st.previousCount ∨
            some (Eu.getActiveQueueCount active).1 ≠ st.previousActiveCount) →
          (Eu.updateQueueInfo st roster active cl).outcome = .published ∧
          presenceCalls (Eu.updateQueueInfo st roster active cl).effects = [b])) ∧
    (∀ (st : Br.State) (roster : FetchResult PlayersData) (active : FetchResult MatchData)
        (cl : Client) (n : Nat), (getQueuePlayerCount roster).1 = some n → n ≤ 8 →
      ∃ b, Br.progressBar n = .ok b ∧ b.length = 8 ∧
        ((some n ≠ st.previousCount ∨ some (Br.isActiveQueue active).1 ≠ st.previousActive) →
          (Br.updateQueueInfo st roster active cl).outcome = .published ∧
          presenceCalls (Br.updateQueueInfo st roster active cl).effects = [b])) ∧
    (∀ (st : Tdm.State) (roster : FetchResult PlayersData) (active : FetchResult MatchData)
        (cl : Client) (n : Nat), (getQueuePlayerCount roster).1 = some n → n ≤ 17 →
      ∃ b, Tdm.progressBar n (Tdm.getActiveQueueCount active).1 = .ok b ∧ b.length = 8 ∧
        ((some n ≠ st.previousCount ∨
            some (Tdm.getActiveQueueCount active).1 ≠ st.previousActiveCount) →
          (Tdm.updateQueueInfo st roster active cl).outcome = .published ∧
          presenceCalls (Tdm.updateQueueInfo st roster active cl).effects = [b])) := by
  refine ⟨?_, ?_, ?_⟩
  · intro st roster active cl n h hn
    have hb := progressBar_ok_eu n (Eu.getActiveQueueCount active).1 hn
    refine ⟨_, hb, by rw [bar_length]; omega, fun hch => ?_⟩
    have hc := (hasChanged_iff_eu st n _).2 hch
    have hp := ((cycle_changed_eu st roster active cl n h hc).2.2 _ hb).1
    obtain ⟨b, hb2, -, hpc⟩ := published_calls_eu st roster active cl n h hp
    rw [hb] at hb2
    cases hb2
    exact ⟨hp, hpc⟩
  · intro st roster active cl n h hn
    have hb := progressBar_ok_br n hn
    refine ⟨_, hb, by rw [bar_length]; omega, fun hch => ?_⟩
    have hc := (hasChanged_iff_br st n _).2 hch
    have hp := ((cycle_changed_br st roster active cl n h hc).2.2 _ hb).1
    obtain ⟨b, hb2, -, hpc⟩ := published_calls_br st roster active cl n h hp
    rw [hb] at hb2
    cases hb2
    exact ⟨hp, hpc⟩
  · intro st roster active cl n h hn
    have hb := progressBar_ok_tdm n (Tdm.getActiveQueueCount active).1 hn
    refine ⟨_, hb, by rw [bar_length]; omega, fun hch => ?_⟩
    have hc := (hasChanged_iff_tdm st n _).2 hch
    have hp := ((cycle_changed_tdm st roster active cl n h hc).2.2 _ hb).1
    obtain ⟨b, hb2, -, hpc⟩ := published_calls_tdm st roster active cl n h hp
    rw [hb] at hb2
    cases hb2
    exact ⟨hp, hpc⟩

theorem render_succeeds_within_capacity_witness :
    ((getQueuePlayerCount (.ok ⟨some 8⟩)).1 = some 8 ∧ 8 ≤ 8 ∧
      ∃ b, Eu.progressBar 8 (Eu.getActiveQueueCount (.ok ⟨0, "{}"⟩)).1 = .ok b ∧
        b.length = 8 ∧
        ((some 8 ≠ Eu.State.init.previousCount ∨
            some (Eu.getActiveQueueCount (.ok ⟨0, "{}"⟩)).1 ≠
              Eu.State.init.previousActiveCount) →
          (Eu.updateQueueInfo Eu.State.init (.ok ⟨some 8⟩) (.ok ⟨0, "{}"⟩)
            Client.allOk).outcome = .published ∧
          presenceCalls (Eu.updateQueueInfo Eu.State.init (.ok ⟨some 8⟩) (.ok ⟨0, "{}"⟩)
            Client.allOk).effects = [b])) ∧
    ((getQueuePlayerCount (.ok ⟨none⟩)).1 = some 0 ∧ 0 ≤ 8 ∧
      ∃ b, Br.progressBar 0 = .ok b ∧ b.length = 8 ∧
        ((some 0 ≠ Br.State.init.previousCount ∨
            some (Br.isActiveQueue (.ok ⟨0, "{}"⟩)).1 ≠ Br.State.init.previousActive) →
          (Br.updateQueueInfo Br.State.init (.ok ⟨none⟩) (.ok ⟨0, "{}"⟩)
            Client.allOk).outcome = .published ∧
          presenceCalls (Br.updateQueueInfo Br.State.init (.ok ⟨none⟩) (.ok ⟨0, "{}"⟩)
            Client.allOk).effects = [b])) ∧
    ((getQueuePlayerCount (.ok ⟨some 17⟩)).1 = some 17 ∧ 17 ≤ 17 ∧
      ∃ b, Tdm.progressBar 17 (Tdm.getActiveQueueCount (.ok ⟨0, "{}"⟩)).1 = .ok b ∧
        b.length = 8 ∧
        ((some 17 ≠ Tdm.State.init.previousCount ∨
            some (Tdm.getActiveQueueCount (.ok ⟨0, "{}"⟩)).1 ≠
              Tdm.State.init.previousActiveCount) →
          (Tdm.updateQueueInfo Tdm.State.init (.ok ⟨some 17⟩) (.ok ⟨0, "{}"⟩)
            Client.allOk).outcome = .published ∧
          presenceCalls (Tdm.updateQueueInfo Tdm.State.init (.ok ⟨some 17⟩) (.ok ⟨0, "{}"⟩)
            Client.allOk).effects = [b])) :=
  ⟨⟨rfl, by decide,
      render_succeeds_within_capacity.1 Eu.State.init (.ok ⟨some 8⟩) (.ok ⟨0, "{}"⟩)
        Client.allOk 8 rfl (by decide)⟩,
    ⟨rfl, by decide,
      render_succeeds_within_capacity.2.1 Br.State.init (.ok ⟨none⟩) (.ok ⟨0, "{}"⟩)
        Client.allOk 0 rfl (by decide)⟩,
    ⟨rfl, by decide,
      render_succeeds_within_capacity.2.2 Tdm.State.init (.ok ⟨some 17⟩) (.ok ⟨0, "{}"⟩)
        Client.allOk 17 rfl (by decide)⟩⟩

/-- C10 (counterexample): in the binary variant an active queue with no
player waiting is published with a bar of 8 gray glyphs and no green one. -/
theorem binary_bar_active_not_all_green :
    (Br.isActiveQueue (.ok ⟨1, "\x7b\"queue\":\"1429676494501711922\"\x7d"⟩)).1 = true ∧
    presenceCalls (Br.updateQueueInfo Br.State.init (.ok ⟨some 0⟩)
      (.ok ⟨1, "\x7b\"queue\":\"1429676494501711922\"\x7d"⟩) Client.allOk).effects =
      [String.mk [gray, gray, gray, gray, gray, gray, gray, gray]] ∧
    Br.progressBar 0 ≠ .ok (String.mk [green, green, green, green, green, green, green, green]) := by
  refine ⟨by decide, by decide, by decide⟩

/-- C10 (amended): in the binary variant the progress bar does not depend on
whether the queue is active: for every count `n` in [0, 8] the bar of a
publishing cycle is `n` green glyphs followed by `8 - n` gray glyphs, for an
active and for an inactive queue alike, and it holds a gray glyph unless
`n = 8`. -/
theorem binary_bar_ignores_activity :
    ∀ (st : Br.State) (roster : FetchResult PlayersData) (active : FetchResult MatchData)
      (cl : Client) (n : Nat), (getQueuePlayerCount roster).1 = some n → n ≤ 8 →
      Br.progressBar n = .ok (bar green gray n (8 - n)) ∧
      (gray ∈ (bar green gray n (8 - n)).data ↔ n ≠ 8) ∧
      ((Br.updateQueueInfo st roster active cl).outcome = .published →
        presenceCalls (Br.updateQueueInfo st roster active cl).effects =
          [bar green gray n (8 - n)]) := by
  intro st roster active cl n h hn
  have hb := progressBar_ok_br n hn
  refine ⟨hb, ?_, fun hp => ?_⟩
  · have hne : gray ≠ green := by decide
    simp only [bar, List.mem_append, List.mem_replicate]
    constructor
    · rintro (⟨-, h1⟩ | ⟨h1, -⟩)
      · exact absurd h1 hne
      · omega
    · intro h8
      exact Or.inr ⟨by omega, trivial⟩
  · obtain ⟨b, hb2, -, hpc⟩ := published_calls_br st roster active cl n h hp
    rw [hb] at hb2
    cases hb2
    exact hpc

theorem binary_bar_ignores_activity_witness :
    (getQueuePlayerCount (.ok ⟨some 3⟩)).1 = some 3 ∧ 3 ≤ 8 ∧
    (Br.isActiveQueue (.ok ⟨1, "\x7b\"queue\":\"1429676494501711922\"\x7d"⟩)).1 = true ∧
    presenceCalls (Br.updateQueueInfo Br.State.init (.ok ⟨some 3⟩)
      (.ok ⟨1, "\x7b\"queue\":\"1429676494501711922\"\x7d"⟩) Client.allOk).effects =
      [bar green gray 3 (8 - 3)] :=
  ⟨rfl, by decide, by decide,
    (binary_bar_ignores_activity Br.State.init (.ok ⟨some 3⟩)
      (.ok ⟨1, "\x7b\"queue\":\"1429676494501711922\"\x7d"⟩) Client.allOk 3 rfl (by decide)).2.2
      (by decide)⟩

/-! ### Decimal numerals and nicknames -/

theorem digitChar_isDigit : ∀ d : Nat, d < 10 → (Nat.digitChar d).isDigit = true := by
  decide

theorem digitValue_digitChar : ∀ d : Nat, d < 10 → digitValue (Nat.digitChar d) = d := by
  decide

theorem toString_data (n : Nat) :
    (toString n).data =
      if n = 0 then [Nat.digitChar 0] else (Nat.digits 10 n).reverse.map Nat.digitChar := by
  rw [toString_eq_decimal, decimal]
  split_ifs <;> rfl

theorem toString_isDigit (n : Nat) : ∀ c ∈ (toString n).data, c.isDigit = true := by
  intro c hc
  rw [toString_data] at hc
  split_ifs at hc with h
  · rw [List.mem_singleton] at hc
    subst hc
    rfl
  · obtain ⟨d, hd, rfl⟩ := List.mem_map.1 hc
    exact digitChar_isDigit d (Nat.digits_lt_base (by norm_num) (List.mem_reverse.1 hd))

theorem toString_ne_nil (n : Nat) : (toString n).data ≠ [] := by
  rw [toString_data]
  split_ifs with h
  · simp
  · simpa [Nat.digits_eq_nil_iff_eq_zero] using h

theorem decodeDecimal_toString (n : Nat) : decodeDecimal (toString n).data = n := by
  rw [toString_data]
  unfold decodeDecimal
  split_ifs with h
  · subst h
    decide
  · have hmap : List.map digitValue (List.map Nat.digitChar (Nat.digits 10 n).reverse) =
        (Nat.digits 10 n).reverse := by
      rw [List.map_map]
      conv_rhs => rw [← List.map_id (Nat.digits 10 n).reverse]
      apply List.map_congr_left
      intro d hd
      exact digitValue_digitChar d (Nat.digits_lt_base (by norm_num) (List.mem_reverse.1 hd))
    rw [hmap, List.reverse_reverse, Nat.ofDigits_digits]

theorem toString_data_inj {n m : Nat} (h : (toString n).data = (toString m).data) : n = m := by
  have := congrArg decodeDecimal h
  rwa [decodeDecimal_toString, decodeDecimal_toString] at this

/-- Two texts that start with a run of digits followed by a character that
is not a digit agree only if the runs agree and the rests agree. -/
theorem digit_run_inj :
    ∀ (xs ys : List Char) (a b : Char) (r s : List Char),
      (∀ c ∈ xs, c.isDigit = true) → (∀ c ∈ ys, c.isDigit = true) →
      a.isDigit = false → b.isDigit = false →
      xs ++ a :: r = ys ++ b :: s → xs = ys ∧ a :: r = b :: s := by
  intro xs
  induction xs with
  | nil =>
    intro ys a b r s _ hys ha _ h
    cases ys with
    | nil => exact ⟨rfl, h⟩
    | cons y ys =>
      simp only [List.nil_append, List.cons_append, List.cons.injEq] at h
      have := hys y (List.mem_cons_self _ _)
      rw [← h.1, ha] at this
      cases this
  | cons x xs ih =>
    intro ys a b r s hxs hys ha hb h
    cases ys with
    | nil =>
      simp only [List.nil_append, List.cons_append, List.cons.injEq] at h
      have := hxs x (List.mem_cons_self _ _)
      rw [h.1, hb] at this
      cases this
    | cons y ys =>
      simp only [List.cons_append, List.cons.injEq] at h
      obtain ⟨hxy, hrest⟩ := h
      obtain ⟨h1, h2⟩ := ih ys a b r s (fun c hc => hxs c (List.mem_cons_of_mem _ hc))
        (fun c hc => hys c (List.mem_cons_of_mem _ hc)) ha hb hrest
      exact ⟨by rw [hxy, h1], h2⟩

theorem num_prefix_inj (n m : Nat) (a b : Char) (r s : List Char)
    (ha : a.isDigit = false) (hb : b.isDigit = false)
    (h : (toString n).data ++ a :: r = (toString m).data ++ b :: s) :
    n = m ∧ a :: r = b :: s := by
  obtain ⟨h1, h2⟩ := digit_run_inj _ _ a b r s (toString_isDigit n) (toString_isDigit m) ha hb h
  exact ⟨toString_data_inj h1, h2⟩

theorem num_prefix_ne (n : Nat) (r : List Char) (b : Char) (s : List Char)
    (hb : b.isDigit = false) : (toString n).data ++ r ≠ b :: s := by
  intro h
  cases hx : (toString n).data with
  | nil => exact toString_ne_nil n hx
  | cons x xs =>
    have hdig := toString_isDigit n x (by rw [hx]; exact List.mem_cons_self _ _)
    rw [hx] at h
    simp only [List.cons_append, List.cons.injEq] at h
    rw [h.1, hb] at hdig
    cases hdig

theorem nickname_inj_eu (n m t u : Nat) (h : Eu.nickname n t = Eu.nickname m u) :
    n = m ∧ t = u := by
  have e1 : ("/8 In Queue" : String).data = '/' :: ("8 In Queue" : String).data := rfl
  have e2 : ("Active - " : String).data = 'A' :: ("ctive - " : String).data := rfl
  have e3 : ("/8 Next" : String).data = '/' :: ("8 Next" : String).data := rfl
  have e4 : (" Active (" : String).data = ' ' :: ("Active (" : String).data := rfl
  have e5 : ("/8 Next)" : String).data = '/' :: ("8 Next)" : String).data := rfl
  have hs : (' ' : Char).isDigit = false := by decide
  have hl : ('/' : Char).isDigit = false := by decide
  have hA : ('A' : Char).isDigit = false := by decide
  have hd := congrArg String.data h
  unfold Eu.nickname at hd
  split_ifs at hd with h1 h2 h3 h4 h5 h6 h7 <;>
    simp only [String.data_append, List.append_assoc, e1, e2, e3, e4, e5,
      List.cons_append] at hd
  · exact ⟨toString_data_inj (List.append_cancel_right hd), by omega⟩
  · exact absurd hd (num_prefix_ne _ _ _ _ hA)
  · exact absurd (num_prefix_inj _ _ _ _ _ _ hl hs hd).2 (by simp)
  · exact absurd hd.symm (num_prefix_ne _ _ _ _ hA)
  · simp only [List.cons.injEq, true_and] at hd
    exact ⟨toString_data_inj (List.append_cancel_right (List.append_cancel_left hd)), by omega⟩
  · exact absurd hd.symm (num_prefix_ne _ _ _ _ hA)
  · exact absurd (num_prefix_inj _ _ _ _ _ _ hs hl hd).2 (by simp)
  · exact absurd hd (num_prefix_ne _ _ _ _ hA)
  · obtain ⟨ht, hrest⟩ := num_prefix_inj _ _ _ _ _ _ hs hs hd
    simp only [List.cons.injEq, true_and] at hrest
    exact ⟨toString_data_inj (List.append_cancel_right (List.append_cancel_left hrest)), ht⟩

theorem nickname_inj_br (n m : Nat) (a b : Bool) (h : Br.nickname n a = Br.nickname m b) :
    n = m ∧ a = b := by
  have e1 : ("/8 In Queue" : String).data = '/' :: ("8 In Queue" : String).data := rfl
  have e2 : ("Active - " : String).data = 'A' :: ("ctive - " : String).data := rfl
  have hA : ('A' : Char).isDigit = false := by decide
  have hd := congrArg String.data h
  unfold Br.nickname at hd
  cases a <;> cases b <;>
    simp only [String.data_append, List.append_assoc, e1, e2, List.cons_append, if_true,
      Bool.false_eq_true, if_false] at hd
  · exact ⟨toString_data_inj (List.append_cancel_right hd), rfl⟩
  · exact absurd hd (num_prefix_ne _ _ _ _ hA)
  · exact absurd hd.symm (num_prefix_ne _ _ _ _ hA)
  · simp only [List.cons.injEq, true_and] at hd
    exact ⟨toString_data_inj (List.append_cancel_right (List.append_cancel_left hd)), rfl⟩

theorem nickname_inj_tdm (n m t u : Nat) (h : Tdm.nickname n t = Tdm.nickname m u) :
    n = m ∧ t = u := by
  have e1 : ("/16 In Queue" : String).data = '/' :: ("16 In Queue" : String).data := rfl
  have e4 : (" Active (" : String).data = ' ' :: ("Active (" : String).data := rfl
  have hs : (' ' : Char).isDigit = false := by decide
  have hl : ('/' : Char).isDigit = false := by decide
  have hd := congrArg String.data h
  unfold Tdm.nickname at hd
  split_ifs at hd with h1 h2 h3 <;>
    simp only [String.data_append, List.append_assoc, e1, e4, List.cons_append] at hd
  · exact ⟨toString_data_inj (List.append_cancel_right hd), by omega⟩
  · exact absurd (num_prefix_inj _ _ _ _ _ _ hl hs hd).2 (by simp)
  · exact absurd (num_prefix_inj _ _ _ _ _ _ hs hl hd).2 (by simp)
  · obtain ⟨ht, hrest⟩ := num_prefix_inj _ _ _ _ _ _ hs hs hd
    simp only [List.cons.injEq, true_and] at hrest
    exact ⟨toString_data_inj (List.append_cancel_right (List.append_cancel_left hrest)), ht⟩

theorem nicknameCalls_append (a b : List Effect) :
    nicknameCalls (a ++ b) = nicknameCalls a ++ nicknameCalls b := by
  simp [nicknameCalls]

theorem nicknameCalls_clientCalls (es : List Effect) :
    nicknameCalls (clientCalls es) = nicknameCalls es := by
  induction es with
  | nil => rfl
  | cons e es ih =>
    cases e <;> simp_all [nicknameCalls, clientCalls, Effect.isClientCall, List.filter_cons]

theorem nicknameCalls_of_no_clientCalls (es : List Effect) (h : clientCalls es = []) :
    nicknameCalls es = [] := by
  rw [← nicknameCalls_clientCalls, h]
  rfl

theorem nicknameCalls_logToChannel (cl : Client) (msg : String) :
    nicknameCalls (logToChannel cl msg) = [] := by
  unfold logToChannel
  rcases cl.channelsFetch with m | _ | _ | _ <;> cases cl.send <;> simp [nicknameCalls]

theorem nicknameCalls_updateNickname (cl : Client) (nick : String) :
    nicknameCalls (updateNickname cl nick) =
      if cl.guildsFetch.isNone && cl.fetchMe.isNone then [nick] else [] := by
  unfold updateNickname
  cases cl.guildsFetch <;> cases cl.fetchMe <;> cases cl.setNickname <;> simp [nicknameCalls]

theorem nicknameCalls_of_publish (cl : Client) (s b nick msg : String) (es : List Effect)
    (h : clientCalls es = [.setStatus s, .setPresence b 4] ++
      clientCalls (updateNickname cl nick) ++ clientCalls (logToChannel cl msg)) :
    nicknameCalls es = if cl.guildsFetch.isNone && cl.fetchMe.isNone then [nick] else [] := by
  rw [← nicknameCalls_clientCalls, h, nicknameCalls_append, nicknameCalls_append,
    nicknameCalls_clientCalls, nicknameCalls_clientCalls, nicknameCalls_updateNickname,
    nicknameCalls_logToChannel]
  simp [nicknameCalls]

theorem nickname_write_eu (st : Eu.State) (roster : FetchResult PlayersData)
    (active : FetchResult MatchData) (cl : Client) (n : Nat)
    (h : (getQueuePlayerCount roster).1 = some n) :
    (∀ x ∈ nicknameCalls (Eu.updateQueueInfo st roster active cl).effects,
      x = Eu.nickname n (Eu.getActiveQueueCount active).1 ∧
      Eu.hasChanged st n (Eu.getActiveQueueCount active).1 = true) ∧
    ((Eu.updateQueueInfo st roster active cl).outcome = .published →
      cl.guildsFetch = none → cl.fetchMe = none →
      nicknameCalls (Eu.updateQueueInfo st roster active cl).effects =
        [Eu.nickname n (Eu.getActiveQueueCount active).1]) := by
  cases hc : Eu.hasChanged st n (Eu.getActiveQueueCount active).1
  · have hu := cycle_unchanged_eu st roster active cl n h hc
    rw [nicknameCalls_of_no_clientCalls _ hu.2.2, hu.2.1]
    simp
  · have hch := cycle_changed_eu st roster active cl n h hc
    cases hb : Eu.progressBar n (Eu.getActiveQueueCount active).1 with
    | error err =>
      rw [nicknameCalls_of_no_clientCalls _ (hch.2.1 err hb).2, (hch.2.1 err hb).1]
      simp
    | ok b =>
      rw [nicknameCalls_of_publish _ _ _ _ _ _ (hch.2.2 b hb).2]
      refine ⟨?_, ?_⟩
      · intro x hx
        split_ifs at hx
        · exact ⟨List.mem_singleton.1 hx, rfl⟩
        · cases hx
      · intro _ h1 h2
        simp [h1, h2]

theorem nickname_write_br (st : Br.State) (roster : FetchResult PlayersData)
    (active : FetchResult MatchData) (cl : Client) (n : Nat)
    (h : (getQueuePlayerCount roster).1 = some n) :
    (∀ x ∈ nicknameCalls (Br.updateQueueInfo st roster active cl).effects,
      x = Br.nickname n (Br.isActiveQueue active).1 ∧
      Br.hasChanged st n (Br.isActiveQueue active).1 = true) ∧
    ((Br.updateQueueInfo st roster active cl).outcome = .published →
      cl.guildsFetch = none → cl.fetchMe = none →
      nicknameCalls (Br.updateQueueInfo st roster active cl).effects =
        [Br.nickname n (Br.isActiveQueue active).1]) := by
  cases hc : Br.hasChanged st n (Br.isActiveQueue active).1
  · have hu := cycle_unchanged_br st roster active cl n h hc
    rw [nicknameCalls_of_no_clientCalls _ hu.2.2, hu.2.1]
    simp
  · have hch := cycle_changed_br st roster active cl n h hc
    cases hb : Br.progressBar n with
    | error err =>
      rw [nicknameCalls_of_no_clientCalls _ (hch.2.1 err hb).2, (hch.2.1 err hb).1]
      simp
    | ok b =>
      rw [nicknameCalls_of_publish _ _ _ _ _ _ (hch.2.2 b hb).2]
      refine ⟨?_, ?_⟩
      · intro x hx
        split_ifs at hx
        · exact ⟨List.mem_singleton.1 hx, rfl⟩
        · cases hx
      · intro _ h1 h2
        simp [h1, h2]

theorem nickname_write_tdm (st : Tdm.State) (roster : FetchResult PlayersData)
    (active : FetchResult MatchData) (cl : Client) (n : Nat)
    (h : (getQueuePlayerCount roster).1 = some n) :
    (∀ x ∈ nicknameCalls (Tdm.updateQueueInfo st roster active cl).effects,
      x = Tdm.nickname n (Tdm.getActiveQueueCount active).1 ∧
      Tdm.hasChanged st n (Tdm.getActiveQueueCount active).1 = true) ∧
    ((Tdm.updateQueueInfo st roster active cl).outcome = .published →
      cl.guildsFetch = none → cl.fetchMe = none →
      nicknameCalls (Tdm.updateQueueInfo st roster active cl).effects =
        [Tdm.nickname n (Tdm.getActiveQueueCount active).1]) := by
  cases hc : Tdm.hasChanged st n (Tdm.getActiveQueueCount active).1
  · have hu := cycle_unchanged_tdm st roster active cl n h hc
    rw [nicknameCalls_of_no_clientCalls _ hu.2.2, hu.2.1]
    simp
  · have hch := cycle_changed_tdm st roster active cl n h hc
    cases hb : Tdm.progressBar n (Tdm.getActiveQueueCount active).1 with
    | error err =>
      rw [nicknameCalls_of_no_clientCalls _ (hch.2.1 err hb).2, (hch.2.1 err hb).1]
      simp
    | ok b =>
      rw [nicknameCalls_of_publish _ _ _ _ _ _ (hch.2.2 b hb).2]
      refine ⟨?_, ?_⟩
      · intro x hx
        split_ifs at hx
        · exact ⟨List.mem_singleton.1 hx, rfl⟩
        · cases hx
      · intro _ h1 h2
        simp [h1, h2]

theorem nickname_after_write_eu (st : Eu.State) (roster1 roster2 : FetchResult PlayersData)
    (active1 active2 : FetchResult MatchData) (cl1 cl2 : Client) (n1 : Nat) (x1 : String)
    (h1 : (getQueuePlayerCount roster1).1 = some n1)
    (hx1 : x1 ∈ nicknameCalls (Eu.updateQueueInfo st roster1 active1 cl1).effects) :
    ∀ x2 ∈ nicknameCalls (Eu.updateQueueInfo (Eu.updateQueueInfo st roster1 active1 cl1).state
      roster2 active2 cl2).effects, x2 ≠ x1 := by
  obtain ⟨e1, hc1⟩ := (nickname_write_eu st roster1 active1 cl1 n1 h1).1 x1 hx1
  rw [(cycle_changed_eu st roster1 active1 cl1 n1 h1 hc1).1]
  intro x2 hx2
  cases h2 : (getQueuePlayerCount roster2).1 with
  | none =>
    rw [nicknameCalls_of_no_clientCalls _ (cycle_skipped_eu _ roster2 active2 cl2 h2).2.2] at hx2
    cases hx2
  | some n2 =>
    obtain ⟨e2, hc2⟩ := (nickname_write_eu _ roster2 active2 cl2 n2 h2).1 x2 hx2
    intro he
    obtain ⟨a, b⟩ := nickname_inj_eu _ _ _ _ (e2.symm.trans (he.trans e1))
    simp [Eu.hasChanged, a, b] at hc2

theorem nickname_after_write_br (st : Br.State) (roster1 roster2 : FetchResult PlayersData)
    (active1 active2 : FetchResult MatchData) (cl1 cl2 : Client) (n1 : Nat) (x1 : String)
    (h1 : (getQueuePlayerCount roster1).1 = some n1)
    (hx1 : x1 ∈ nicknameCalls (Br.updateQueueInfo st roster1 active1 cl1).effects) :
    ∀ x2 ∈ nicknameCalls (Br.updateQueueInfo (Br.updateQueueInfo st roster1 active1 cl1).state
      roster2 active2 cl2).effects, x2 ≠ x1 := by
  obtain ⟨e1, hc1⟩ := (nickname_write_br st roster1 active1 cl1 n1 h1).1 x1 hx1
  rw [(cycle_changed_br st roster1 active1 cl1 n1 h1 hc1).1]
  intro x2 hx2
  cases h2 : (getQueuePlayerCount roster2).1 with
  | none =>
    rw [nicknameCalls_of_no_clientCalls _ (cycle_skipped_br _ roster2 active2 cl2 h2).2.2] at hx2
    cases hx2
  | some n2 =>
    obtain ⟨e2, hc2⟩ := (nickname_write_br _ roster2 active2 cl2 n2 h2).1 x2 hx2
    intro he
    obtain ⟨a, b⟩ := nickname_inj_br _ _ _ _ (e2.symm.trans (he.trans e1))
    simp [Br.hasChanged, a, b] at hc2

theorem nickname_after_write_tdm (st : Tdm.State) (roster1 roster2 : FetchResult PlayersData)
    (active1 active2 : FetchResult MatchData) (cl1 cl2 : Client) (n1 : Nat) (x1 : String)
    (h1 : (getQueuePlayerCount roster1).1 = some n1)
    (hx1 : x1 ∈ nicknameCalls (Tdm.updateQueueInfo st roster1 active1 cl1).effects) :
    ∀ x2 ∈ nicknameCalls (Tdm.updateQueueInfo
      (Tdm.updateQueueInfo st roster1 active1 cl1).state roster2 active2 cl2).effects,
      x2 ≠ x1 := by
  obtain ⟨e1, hc1⟩ := (nickname_write_tdm st roster1 active1 cl1 n1 h1).1 x1 hx1
  rw [(cycle_changed_tdm st roster1 active1 cl1 n1 h1 hc1).1]
  intro x2 hx2
  cases h2 : (getQueuePlayerCount roster2).1 with
  | none =>
    rw [nicknameCalls_of_no_clientCalls _ (cycle_skipped_tdm _ roster2 active2 cl2 h2).2.2] at hx2
    cases hx2
  | some n2 =>
    obtain ⟨e2, hc2⟩ := (nickname_write_tdm _ roster2 active2 cl2 n2 h2).1 x2 hx2
    intro he
    obtain ⟨a, b⟩ := nickname_inj_tdm _ _ _ _ (e2.symm.trans (he.trans e1))
    simp [Tdm.hasChanged, a, b] at hc2

/-- C11 (counterexample): an emitted update can write the nickname that was
written last.  With 4 players, then 5 players while the guild lookup of the
nickname block fails, then 4 players again, the second cycle stores the
observation of 5 players but writes no nickname, and the third cycle writes the
nickname of the first once more; the same happens in the 8 player tier
counting variant with 8, then 9, then 8 players, where the second cycle throws
while rendering. -/
theorem nickname_write_repeats_last_written :
    ((Eu.updateQueueInfo Eu.State.init (.ok ⟨some 4⟩) (.ok ⟨0, "{}"⟩) Client.allOk).state =
        ⟨some 4, some 0⟩ ∧
      nicknameCalls (Eu.updateQueueInfo Eu.State.init (.ok ⟨some 4⟩) (.ok ⟨0, "{}"⟩)
        Client.allOk).effects = ["4/8 In Queue"] ∧
      (Eu.updateQueueInfo ⟨some 4, some 0⟩ (.ok ⟨some 5⟩) (.ok ⟨0, "{}"⟩) Client.allFail).state =
        ⟨some 5, some 0⟩ ∧
      nicknameCalls (Eu.updateQueueInfo ⟨some 4, some 0⟩ (.ok ⟨some 5⟩) (.ok ⟨0, "{}"⟩)
        Client.allFail).effects = [] ∧
      nicknameCalls (Eu.updateQueueInfo ⟨some 5, some 0⟩ (.ok ⟨some 4⟩) (.ok ⟨0, "{}"⟩)
        Client.allOk).effects = ["4/8 In Queue"]) ∧
    ((Br.updateQueueInfo Br.State.init (.ok ⟨some 4⟩) (.ok ⟨0, "{}"⟩) Client.allOk).state =
        ⟨some 4, some false⟩ ∧
      nicknameCalls (Br.updateQueueInfo Br.State.init (.ok ⟨some 4⟩) (.ok ⟨0, "{}"⟩)
        Client.allOk).effects = ["4/8 In Queue"] ∧
      (Br.updateQueueInfo ⟨some 4, some false⟩ (.ok ⟨some 5⟩) (.ok ⟨0, "{}"⟩)
        Client.allFail).state = ⟨some 5, some false⟩ ∧
      nicknameCalls (Br.updateQueueInfo ⟨some 4, some false⟩ (.ok ⟨some 5⟩) (.ok ⟨0, "{}"⟩)
        Client.allFail).effects = [] ∧
      nicknameCalls (Br.updateQueueInfo ⟨some 5, some false⟩ (.ok ⟨some 4⟩) (.ok ⟨0, "{}"⟩)
        Client.allOk).effects = ["4/8 In Queue"]) ∧
    ((Tdm.updateQueueInfo Tdm.State.init (.ok ⟨some 4⟩) (.ok ⟨0, "{}"⟩) Client.allOk).state =
        ⟨some 4, some 0⟩ ∧
      nicknameCalls (Tdm.updateQueueInfo Tdm.State.init (.ok ⟨some 4⟩) (.ok ⟨0, "{}"⟩)
        Client.allOk).effects = ["4/16 In Queue"] ∧
      (Tdm.updateQueueInfo ⟨some 4, some 0⟩ (.ok ⟨some 5⟩) (.ok ⟨0, "{}"⟩)
        Client.allFail).state = ⟨some 5, some 0⟩ ∧
      nicknameCalls (Tdm.updateQueueInfo ⟨some 4, some 0⟩ (.ok ⟨some 5⟩) (.ok ⟨0, "{}"⟩)
        Client.allFail).effects = [] ∧
      nicknameCalls (Tdm.updateQueueInfo ⟨some 5, some 0⟩ (.ok ⟨some 4⟩) (.ok ⟨0, "{}"⟩)
        Client.allOk).effects = ["4/16 In Queue"]) ∧
    ((Eu.updateQueueInfo Eu.State.init (.ok ⟨some 8⟩) (.ok ⟨0, "{}"⟩) Client.allOk).state =
        ⟨some 8, some 0⟩ ∧
      nicknameCalls (Eu.updateQueueInfo Eu.State.init (.ok ⟨some 8⟩) (.ok ⟨0, "{}"⟩)
        Client.allOk).effects = ["8/8 In Queue"] ∧
      (Eu.updateQueueInfo ⟨some 8, some 0⟩ (.ok ⟨some 9⟩) (.ok ⟨0, "{}"⟩) Client.allOk).state =
        ⟨some 9, some 0⟩ ∧
      nicknameCalls (Eu.updateQueueInfo ⟨some 8, some 0⟩ (.ok ⟨some 9⟩) (.ok ⟨0, "{}"⟩)
        Client.allOk).effects = [] ∧
      nicknameCalls (Eu.updateQueueInfo ⟨some 9, some 0⟩ (.ok ⟨some 8⟩) (.ok ⟨0, "{}"⟩)
        Client.allOk).effects = ["8/8 In Queue"]) := by
  refine ⟨⟨by decide, by decide, by decide, by decide, by decide⟩,
    ⟨by decide, by decide, by decide, by decide, by decide⟩,
    ⟨by decide, by decide, by decide, by decide, by decide⟩,
    ⟨by decide, by decide, by decide, by decide, by decide⟩⟩

/-- C11 (amended): in each variant the nickname is an injective function of
the observation: equal nicknames force equal counts and equal active values
(tiers, or the boolean of the binary variant).  Hence in a cycle that runs on
a stored state left by an earlier update, every nickname passed to
`setNickname` is the one of the current observation and differs from the one
of the stored state, and when the cycle publishes and the guild and member
lookups succeed, that nickname is written exactly once.  In particular a
cycle that directly follows a cycle which wrote a nickname never writes that
nickname again. -/
theorem nickname_injective :
    (∀ n m t u : Nat, Eu.nickname n t = Eu.nickname m u → n = m ∧ t = u) ∧
    (∀ (n m : Nat) (a b : Bool), Br.nickname n a = Br.nickname m b → n = m ∧ a = b) ∧
    (∀ n m t u : Nat, Tdm.nickname n t = Tdm.nickname m u → n = m ∧ t = u) ∧
    (∀ (roster : FetchResult PlayersData) (active : FetchResult MatchData) (cl : Client)
        (n m u : Nat), (getQueuePlayerCount roster).1 = some n →
      (∀ x ∈ nicknameCalls (Eu.updateQueueInfo ⟨some m, some u⟩ roster active cl).effects,
        x = Eu.nickname n (Eu.getActiveQueueCount active).1 ∧ x ≠ Eu.nickname m u) ∧
      ((Eu.updateQueueInfo ⟨some m, some u⟩ roster active cl).outcome = .published →
        cl.guildsFetch = none → cl.fetchMe = none →
        nicknameCalls (Eu.updateQueueInfo ⟨some m, some u⟩ roster active cl).effects =
          [Eu.nickname n (Eu.getActiveQueueCount active).1])) ∧
    (∀ (roster : FetchResult PlayersData) (active : FetchResult MatchData) (cl : Client)
        (n m : Nat) (b : Bool), (getQueuePlayerCount roster).1 = some n →
      (∀ x ∈ nicknameCalls (Br.updateQueueInfo ⟨some m, some b⟩ roster active cl).effects,
        x = Br.nickname n (Br.isActiveQueue active).1 ∧ x ≠ Br.nickname m b) ∧
      ((Br.updateQueueInfo ⟨some m, some b⟩ roster active cl).outcome = .published →
        cl.guildsFetch = none → cl.fetchMe = none →
        nicknameCalls (Br.updateQueueInfo ⟨some m, some b⟩ roster active cl).effects =
          [Br.nickname n (Br.isActiveQueue active).1])) ∧
    (∀ (roster : FetchResult PlayersData) (active : FetchResult MatchData) (cl : Client)
        (n m u : Nat), (getQueuePlayerCount roster).1 = some n →
      (∀ x ∈ nicknameCalls (Tdm.updateQueueInfo ⟨some m, some u⟩ roster active cl).effects,
        x = Tdm.nickname n (Tdm.getActiveQueueCount active).1 ∧ x ≠ Tdm.nickname m u) ∧
      ((Tdm.updateQueueInfo ⟨some m, some u⟩ roster active cl).outcome = .published →
        cl.guildsFetch = none → cl.fetchMe = none →
        nicknameCalls (Tdm.updateQueueInfo ⟨some m, some u⟩ roster active cl).effects =
          [Tdm.nickname n (Tdm.getActiveQueueCount active).1])) ∧
    (∀ (st : Eu.State) (roster1 roster2 : FetchResult PlayersData)
        (active1 active2 : FetchResult MatchData) (cl1 cl2 : Client) (n1 : Nat) (x1 : String),
      (getQueuePlayerCount roster1).1 = some n1 →
      x1 ∈ nicknameCalls (Eu.updateQueueInfo st roster1 active1 cl1).effects →
      ∀ x2 ∈ nicknameCalls (Eu.updateQueueInfo
        (Eu.updateQueueInfo st roster1 active1 cl1).state roster2 active2 cl2).effects,
        x2 ≠ x1) ∧
    (∀ (st : Br.State) (roster1 roster2 : FetchResult PlayersData)
        (active1 active2 : FetchResult MatchData) (cl1 cl2 : Client) (n1 : Nat) (x1 : String),
      (getQueuePlayerCount roster1).1 = some n1 →
      x1 ∈ nicknameCalls (Br.updateQueueInfo st roster1 active1 cl1).effects →
      ∀ x2 ∈ nicknameCalls (Br.updateQueueInfo
        (Br.updateQueueInfo st roster1 active1 cl1).state roster2 active2 cl2).effects,
        x2 ≠ x1) ∧
    (∀ (st : Tdm.State) (roster1 roster2 : FetchResult PlayersData)
        (active1 active2 : FetchResult MatchData) (cl1 cl2 : Client) (n1 : Nat) (x1 : String),
      (getQueuePlayerCount roster1).1 = some n1 →
      x1 ∈ nicknameCalls (Tdm.updateQueueInfo st roster1 active1 cl1).effects →
      ∀ x2 ∈ nicknameCalls (Tdm.updateQueueInfo
        (Tdm.updateQueueInfo st roster1 active1 cl1).state roster2 active2 cl2).effects,
        x2 ≠ x1) := by
  refine ⟨nickname_inj_eu, nickname_inj_br, nickname_inj_tdm, ?_, ?_, ?_,
    fun st r1 r2 a1 a2 c1 c2 n1 x1 h1 hx1 =>
      nickname_after_write_eu st r1 r2 a1 a2 c1 c2 n1 x1 h1 hx1,
    fun st r1 r2 a1 a2 c1 c2 n1 x1 h1 hx1 =>
      nickname_after_write_br st r1 r2 a1 a2 c1 c2 n1 x1 h1 hx1,
    fun st r1 r2 a1 a2 c1 c2 n1 x1 h1 hx1 =>
      nickname_after_write_tdm st r1 r2 a1 a2 c1 c2 n1 x1 h1 hx1⟩
  · intro roster active cl n m u h
    have hw := nickname_write_eu ⟨some m, some u⟩ roster active cl n h
    refine ⟨fun x hx => ?_, hw.2⟩
    obtain ⟨hx1, hc⟩ := hw.1 x hx
    refine ⟨hx1, fun hx2 => ?_⟩
    obtain ⟨e1, e2⟩ := nickname_inj_eu _ _ _ _ (hx1.symm.trans hx2)
    simp [Eu.hasChanged, e1, e2] at hc
  · intro roster active cl n m b h
    have hw := nickname_write_br ⟨some m, some b⟩ roster active cl n h
    refine ⟨fun x hx => ?_, hw.2⟩
    obtain ⟨hx1, hc⟩ := hw.1 x hx
    refine ⟨hx1, fun hx2 => ?_⟩
    obtain ⟨e1, e2⟩ := nickname_inj_br _ _ _ _ (hx1.symm.trans hx2)
    simp [Br.hasChanged, e1, e2] at hc
  · intro roster active cl n m u h
    have hw := nickname_write_tdm ⟨some m, some u⟩ roster active cl n h
    refine ⟨fun x hx => ?_, hw.2⟩
    obtain ⟨hx1, hc⟩ := hw.1 x hx
    refine ⟨hx1, fun hx2 => ?_⟩
    obtain ⟨e1, e2⟩ := nickname_inj_tdm _ _ _ _ (hx1.symm.trans hx2)
    simp [Tdm.hasChanged, e1, e2] at hc

theorem nickname_injective_witness :
    (Eu.nickname 12 3 = Eu.nickname 12 3 ∧ 12 = 12 ∧ 3 = 3) ∧
    (Br.nickname 7 true = Br.nickname 7 true ∧ 7 = 7 ∧ true = true) ∧
    (Tdm.nickname 16 1 = Tdm.nickname 16 1 ∧ 16 = 16 ∧ 1 = 1) ∧
    ("Active - 5/8 Next" ∈ nicknameCalls (Eu.updateQueueInfo ⟨some 4, some 1⟩ (.ok ⟨some 5⟩)
        (.ok ⟨1, "[\"1397417921210482788\"]"⟩) Client.allOk).effects ∧
      "Active - 5/8 Next" ≠ Eu.nickname 4 1 ∧
      nicknameCalls (Eu.updateQueueInfo ⟨some 4, some 1⟩ (.ok ⟨some 5⟩)
        (.ok ⟨1, "[\"1397417921210482788\"]"⟩) Client.allOk).effects =
        [Eu.nickname 5 (Eu.getActiveQueueCount (.ok ⟨1, "[\"1397417921210482788\"]"⟩)).1]) ∧
    ("3/8 In Queue" ∈ nicknameCalls (Br.updateQueueInfo ⟨some 3, some true⟩ (.ok ⟨some 3⟩)
        (.ok ⟨0, "{}"⟩) Client.allOk).effects ∧
      "3/8 In Queue" ≠ Br.nickname 3 true ∧
      nicknameCalls (Br.updateQueueInfo ⟨some 3, some true⟩ (.ok ⟨some 3⟩)
        (.ok ⟨0, "{}"⟩) Client.allOk).effects =
        [Br.nickname 3 (Br.isActiveQueue (.ok ⟨0, "{}"⟩)).1]) ∧
    ("11/16 In Queue" ∈ nicknameCalls (Tdm.updateQueueInfo ⟨some 1, some 0⟩ (.ok ⟨some 11⟩)
        (.ok ⟨0, "{}"⟩) Client.allOk).effects ∧
      "11/16 In Queue" ≠ Tdm.nickname 1 0 ∧
      nicknameCalls (Tdm.updateQueueInfo ⟨some 1, some 0⟩ (.ok ⟨some 11⟩)
        (.ok ⟨0, "{}"⟩) Client.allOk).effects =
        [Tdm.nickname 11 (Tdm.getActiveQueueCount (.ok ⟨0, "{}"⟩)).1]) ∧
    ("4/8 In Queue" ∈ nicknameCalls (Eu.updateQueueInfo Eu.State.init (.ok ⟨some 4⟩)
        (.ok ⟨0, "{}"⟩) Client.allOk).effects ∧
      "5/8 In Queue" ∈ nicknameCalls (Eu.updateQueueInfo
        (Eu.updateQueueInfo Eu.State.init (.ok ⟨some 4⟩) (.ok ⟨0, "{}"⟩) Client.allOk).state
        (.ok ⟨some 5⟩) (.ok ⟨0, "{}"⟩) Client.allOk).effects ∧
      "5/8 In Queue" ≠ "4/8 In Queue") ∧
    ("4/8 In Queue" ∈ nicknameCalls (Br.updateQueueInfo Br.State.init (.ok ⟨some 4⟩)
        (.ok ⟨0, "{}"⟩) Client.allOk).effects ∧
      "Active - 4/8 Next" ∈ nicknameCalls (Br.updateQueueInfo
        (Br.updateQueueInfo Br.State.init (.ok ⟨some 4⟩) (.ok ⟨0, "{}"⟩) Client.allOk).state
        (.ok ⟨some 4⟩) (.ok ⟨1, "[\"1429676494501711922\"]"⟩) Client.allOk).effects ∧
      "Active - 4/8 Next" ≠ "4/8 In Queue") ∧
    ("4/16 In Queue" ∈ nicknameCalls (Tdm.updateQueueInfo Tdm.State.init (.ok ⟨some 4⟩)
        (.ok ⟨0, "{}"⟩) Client.allOk).effects ∧
      "0/16 In Queue" ∈ nicknameCalls (Tdm.updateQueueInfo
        (Tdm.updateQueueInfo Tdm.State.init (.ok ⟨some 4⟩) (.ok ⟨0, "{}"⟩) Client.allOk).state
        (.ok ⟨none⟩) (.ok ⟨0, "{}"⟩) Client.allOk).effects ∧
      "0/16 In Queue" ≠ "4/16 In Queue") :=
  ⟨⟨rfl, nickname_injective.1 12 12 3 3 rfl⟩,
    ⟨rfl, nickname_injective.2.1 7 7 true true rfl⟩,
    ⟨rfl, nickname_injective.2.2.1 16 16 1 1 rfl⟩,
    ⟨by decide,
      ((nickname_injective.2.2.2.1 (.ok ⟨some 5⟩) (.ok ⟨1, "[\"1397417921210482788\"]"⟩)
        Client.allOk 5 4 1 rfl).1 "Active - 5/8 Next" (by decide)).2,
      (nickname_injective.2.2.2.1 (.ok ⟨some 5⟩) (.ok ⟨1, "[\"1397417921210482788\"]"⟩)
        Client.allOk 5 4 1 rfl).2 (by decide) rfl rfl⟩,
    ⟨by decide,
      ((nickname_injective.2.2.2.2.1 (.ok ⟨some 3⟩) (.ok ⟨0, "{}"⟩) Client.allOk 3 3 true
        rfl).1 "3/8 In Queue" (by decide)).2,
      (nickname_injective.2.2.2.2.1 (.ok ⟨some 3⟩) (.ok ⟨0, "{}"⟩) Client.allOk 3 3 true
        rfl).2 (by decide) rfl rfl⟩,
    ⟨by decide,
      ((nickname_injective.2.2.2.2.2.1 (.ok ⟨some 11⟩) (.ok ⟨0, "{}"⟩) Client.allOk 11 1 0
        rfl).1 "11/16 In Queue" (by decide)).2,
      (nickname_injective.2.2.2.2.2.1 (.ok ⟨some 11⟩) (.ok ⟨0, "{}"⟩) Client.allOk 11 1 0
        rfl).2 (by decide) rfl rfl⟩,
    ⟨by decide, by decide,
      nickname_injective.2.2.2.2.2.2.1 Eu.State.init (.ok ⟨some 4⟩) (.ok ⟨some 5⟩)
        (.ok ⟨0, "{}"⟩) (.ok ⟨0, "{}"⟩) Client.allOk Client.allOk 4 "4/8 In Queue" rfl
        (by decide) "5/8 In Queue" (by decide)⟩,
    ⟨by decide, by decide,
      nickname_injective.2.2.2.2.2.2.2.1 Br.State.init (.ok ⟨some 4⟩) (.ok ⟨some 4⟩)
        (.ok ⟨0, "{}"⟩) (.ok ⟨1, "[\"1429676494501711922\"]"⟩) Client.allOk Client.allOk 4
        "4/8 In Queue" rfl (by decide) "Active - 4/8 Next" (by decide)⟩,
    ⟨by decide, by decide,
      nickname_injective.2.2.2.2.2.2.2.2 Tdm.State.init (.ok ⟨some 4⟩) (.ok ⟨none⟩)
        (.ok ⟨0, "{}"⟩) (.ok ⟨0, "{}"⟩) Client.allOk Client.allOk 4 "4/16 In Queue" rfl
        (by decide) "0/16 In Queue" (by decide)⟩⟩

end QueueBots
